import Mathlib

/-!
Shallow embedding of the lease/occupancy subsystem of the property-management
backend (src/src/modules/admin/lease.controller.js and the tenant-reassignment
slice of src/src/modules/admin/tenant.controller.js).

Modelling conventions:
* Database rows become structures; the database becomes a `State` of row lists.
* All status fields are the literal strings the code compares against
  (`"Vacant"`, `"Occupied"`, `"Fully Booked"`, `"DRAFT"`, `"Active"`,
  `"ACTIVE"`, `"MOVED"`, `"sent"`, `"paid"`, `"FULL_UNIT"`, `"BEDROOM_WISE"`).
* Money is `Int` (the claims only assign, copy and compare amounts with 0);
  nullable columns are `Option`.
* `new Date()` / request dates become an explicit `Date` (year, month, day);
  JS `toLocaleString(\x7bmonth:'long',year:'numeric'\x7d)` becomes `monthLabel`.
* Each handler wraps all writes in one `prisma.$transaction`, so an error
  thrown anywhere inside leaves the database untouched.  The observable
  semantics of a handler is therefore `State × Except String α`: the guard
  function (`…Err`) collects, in source order, every condition that makes the
  transaction throw (validation errors, and Prisma `update` on a missing row /
  a JS `TypeError` on a missing included relation), and the pure `…Apply`
  function performs the writes of the success path.  On any error the returned
  state is the input state, which is exactly the rollback behaviour.
* Row ids assigned by the database are modelled with a `nextId` counter;
  `transactions` are kept in id order so `findFirst orderBy id desc` is
  `getLast?`.
-/

namespace PropertySaif

/-- Calendar date, month granularity is what the invoice month label uses. -/
structure Date where
  year : Nat
  month : Nat
  day : Nat
deriving DecidableEq, Inhabited

/-- English long month name, as produced by JS `toLocaleString` with
`month: 'long'` in the default locale. -/
def monthName : Nat → String
  | 1 => "January"
  | 2 => "February"
  | 3 => "March"
  | 4 => "April"
  | 5 => "May"
  | 6 => "June"
  | 7 => "July"
  | 8 => "August"
  | 9 => "September"
  | 10 => "October"
  | 11 => "November"
  | 12 => "December"
  | _ => "Invalid"

/-- JS `date.toLocaleString('default', \x7bmonth:'long', year:'numeric'\x7d)`:
the invoice month key, e.g. `"January 2026"`. -/
def monthLabel (d : Date) : String :=
  monthName d.month ++ " " ++ toString d.year

/-- JS `String(n).padStart(5, '0')`. -/
def padStart5 (s : String) : String :=
  String.mk (List.replicate (5 - s.length) '0') ++ s

/-- Unit row: occupancy status and rental mode (`rentalMode` is nullable). -/
structure Unit where
  id : Nat
  status : String
  rentalMode : Option String
deriving DecidableEq, Inhabited

/-- Bedroom row. -/
structure Bedroom where
  id : Nat
  unitId : Nat
  bedroomNumber : Nat
  status : String
deriving DecidableEq, Inhabited

/-- Lease row.  `bedroomId` is the nullable column added by the migration;
dates, rent and deposit are nullable while the lease is a draft. -/
structure Lease where
  id : Nat
  unitId : Nat
  bedroomId : Option Nat
  tenantId : Nat
  status : String
  startDate : Option Date
  endDate : Option Date
  monthlyRent : Option Int
  securityDeposit : Option Int
deriving DecidableEq, Inhabited

/-- Tenant (User) row, restricted to the denormalized occupancy cache the
lease/occupancy subsystem reads and writes. -/
structure User where
  id : Nat
  unitId : Option Nat
  bedroomId : Option Nat
  buildingId : Option Nat
deriving DecidableEq, Inhabited

/-- Invoice row. -/
structure Invoice where
  id : Nat
  invoiceNo : String
  tenantId : Nat
  unitId : Nat
  leaseId : Nat
  leaseType : Option String
  month : String
  rent : Int
  serviceFees : Int
  amount : Int
  paidAmount : Int
  balanceDue : Int
  status : String
  dueDate : Date
deriving DecidableEq, Inhabited

/-- Ledger transaction row (security deposits append `Liability` entries). -/
structure Transaction where
  id : Nat
  date : Date
  description : String
  type : String
  amount : Int
  balance : Int
  status : String
deriving DecidableEq, Inhabited

/-- The relational store. -/
structure State where
  units : List Unit
  bedrooms : List Bedroom
  leases : List Lease
  users : List User
  invoices : List Invoice
  transactions : List Transaction
  nextId : Nat
deriving DecidableEq, Inhabited

/-- Prisma `unit.update(\x7bwhere:\x7bid\x7d\x7d)` success path: rewrite the
row with that id. -/
def updateUnitP (s : State) (uid : Nat) (f : Unit → Unit) : State :=
  { s with units := s.units.map (fun u => if u.id == uid then f u else u) }

/-- Prisma `bedroom.update` success path. -/
def updateBedroomP (s : State) (bid : Nat) (f : Bedroom → Bedroom) : State :=
  { s with bedrooms := s.bedrooms.map (fun b => if b.id == bid then f b else b) }

/-- Prisma `user.update` success path. -/
def updateUserP (s : State) (uid : Nat) (f : User → User) : State :=
  { s with users := s.users.map (fun u => if u.id == uid then f u else u) }

/-- Prisma `invoice.findFirst` filter on the (tenantId, unitId, month) key. -/
def invFor (tId uId : Nat) (monthStr : String) (i : Invoice) : Bool :=
  i.tenantId == tId && i.unitId == uId && i.month == monthStr

/-- Number of Invoice rows for a (tenantId, unitId, month) triple. -/
def invoiceCountFor (s : State) (tId uId : Nat) (monthStr : String) : Nat :=
  (s.invoices.filter (invFor tId uId monthStr)).length

/-- The "ensure first invoice" step shared verbatim by `createLease`
(lease.controller.js 548-580) and `activateLease` (302-332): if no invoice
exists for (tenantId, unitId, month), create one numbered from the current
invoice count. -/
def ensureInvoice (s : State) (tId uId leaseId : Nat) (leaseType : Option String)
    (monthStr : String) (rentAmt : Int) (due : Date) : State :=
  if (s.invoices.find? (invFor tId uId monthStr)).isSome then
    s
  else
    let count := s.invoices.length
    let invoiceNo := "INV-LEASE-" ++ padStart5 (toString (count + 1))
    { s with
      invoices := s.invoices ++ [{
        id := s.nextId, invoiceNo := invoiceNo, tenantId := tId, unitId := uId,
        leaseId := leaseId, leaseType := leaseType, month := monthStr,
        rent := rentAmt, serviceFees := 0, amount := rentAmt, paidAmount := 0,
        balanceDue := rentAmt, status := "sent", dueDate := due }],
      nextId := s.nextId + 1 }

/-- Request body of POST /api/admin/leases, after the HTTP layer's parsing
(`parseInt` / `parseFloat` glue). -/
structure CreateLeaseReq where
  unitId : Nat
  tenantId : Nat
  bedroomId : Option Nat
  startDate : Date
  endDate : Date
  monthlyRent : Int
  securityDeposit : Int
deriving DecidableEq, Inhabited

/-- First error thrown inside `createLease`'s transaction
(lease.controller.js 385-600), in source order: unit lookup (397-399),
full-unit validation (405-424), bedroom validation (426-450); after the
validations the only remaining fallible write is `tx.user.update` on the
tenant (503-506 / 542-545), which throws when the user row is missing. -/
def createLeaseErr (s : State) (r : CreateLeaseReq) : Option String :=
  match s.units.find? (fun u => u.id == r.unitId) with
  | none => some "Unit not found"
  | some unit =>
    let bedroomsList := s.bedrooms.filter (fun b => b.unitId == r.unitId)
    let unitLeases := s.leases.filter (fun l =>
      l.unitId == r.unitId && (l.status == "Active" || l.status == "DRAFT"))
    match r.bedroomId with
    | none =>
      let occupiedBedrooms := bedroomsList.filter (fun b => b.status == "Occupied")
      if occupiedBedrooms.length > 0 then
        some ("Cannot create full unit lease: " ++ toString occupiedBedrooms.length ++
          " bedroom(s) are already occupied. Please ensure all bedrooms are vacant.")
      else if (unitLeases.find? (fun l => l.status == "Active")).isSome then
        some "Cannot create full unit lease: This unit already has an ACTIVE lease."
      else if (unitLeases.find? (fun l =>
          l.status == "DRAFT" && !(l.tenantId == r.tenantId))).isSome then
        some "Cannot create full unit lease: This unit already has a pending lease for another tenant."
      else if (s.users.find? (fun u => u.id == r.tenantId)).isNone then
        some "Record to update not found: User"
      else none
    | some b =>
      let fullMode := unit.rentalMode == some "FULL_UNIT" || unit.rentalMode == none
      if (unitLeases.find? (fun l => l.status == "Active" && fullMode)).isSome then
        some "Cannot lease bedroom: This unit already has an ACTIVE full unit lease."
      else if (unitLeases.find? (fun l =>
          l.status == "DRAFT" && fullMode && !(l.tenantId == r.tenantId))).isSome then
        some "Cannot lease bedroom: This unit is already reserved as a full unit for another tenant."
      else
        match bedroomsList.find? (fun x => x.id == b) with
        | none => some "Bedroom not found in this unit"
        | some bedroom =>
          if !(bedroom.status == "Vacant") then
            some ("Bedroom " ++ toString bedroom.bedroomNumber ++
              " is not available (current status: " ++ bedroom.status ++ ")")
          else if (s.users.find? (fun u => u.id == r.tenantId)).isNone then
            some "Record to update not found: User"
          else none

/-- Success path of `createLease`'s transaction (lease.controller.js 452-599):
reuse a DRAFT lease for (unit, tenant) or create a new row (note: `leaseData`
never contains `bedroomId`), update unit/bedroom/tenant statuses per scope,
ensure the first invoice, and append a deposit ledger entry. -/
def createLeaseApply (s : State) (r : CreateLeaseReq) (now : Date) : State × Lease :=
  let uId := r.unitId
  let tId := r.tenantId
  let draftLease := s.leases.find? (fun l =>
    l.unitId == uId && l.tenantId == tId && l.status == "DRAFT")
  let p1 : State × Lease :=
    match draftLease with
    | some d =>
      let newL := { d with
        startDate := some r.startDate, endDate := some r.endDate,
        monthlyRent := some r.monthlyRent,
        securityDeposit := some r.securityDeposit, status := "Active" }
      ({ s with leases := s.leases.map (fun l => if l.id == d.id then newL else l) }, newL)
    | none =>
      let newL : Lease := {
        id := s.nextId, unitId := uId, bedroomId := none, tenantId := tId,
        status := "Active", startDate := some r.startDate, endDate := some r.endDate,
        monthlyRent := some r.monthlyRent, securityDeposit := some r.securityDeposit }
      ({ s with leases := s.leases ++ [newL], nextId := s.nextId + 1 }, newL)
  let s1 := p1.1
  let lease := p1.2
  let s2 :=
    match r.bedroomId with
    | none =>
      let sA := updateUnitP s1 uId (fun u =>
        { u with status := "Fully Booked", rentalMode := some "FULL_UNIT" })
      let sB := { sA with bedrooms := sA.bedrooms.map (fun b =>
        if b.unitId == uId then { b with status := "Occupied" } else b) }
      updateUserP sB tId (fun u => { u with bedroomId := none })
    | some b =>
      let sA := updateBedroomP s1 b (fun bd => { bd with status := "Occupied" })
      let sB := updateUnitP sA uId (fun u => { u with rentalMode := some "BEDROOM_WISE" })
      let allOccupied := (sB.bedrooms.filter (fun bd => bd.unitId == uId)).all
        (fun bd => bd.status == "Occupied")
      let sC := updateUnitP sB uId (fun u =>
        { u with status := if allOccupied then "Fully Booked" else "Occupied" })
      updateUserP sC tId (fun u => { u with bedroomId := some b })
  let monthStr := monthLabel r.startDate
  let leaseType := match r.bedroomId with
    | none => "FULL_UNIT"
    | some _ => "BEDROOM_WISE"
  let s3 := ensureInvoice s2 tId uId lease.id (some leaseType) monthStr r.monthlyRent r.startDate
  let s4 :=
    if r.securityDeposit > 0 then
      let prevBalance := ((s3.transactions.getLast?).map (fun t => t.balance)).getD 0
      { s3 with
        transactions := s3.transactions ++ [{
          id := s3.nextId, date := now,
          description := "Security Deposit Received - Lease " ++ toString lease.id ++
            (match r.bedroomId with
             | some _ => " (Bedroom)"
             | none => " (Full Unit)"),
          type := "Liability", amount := r.securityDeposit,
          balance := prevBalance + r.securityDeposit, status := "Completed" }],
        nextId := s3.nextId + 1 }
    else s3
  (s4, lease)

/-- POST /api/admin/leases (lease.controller.js 373-609).  All writes share
one transaction, so an error anywhere returns the input state unchanged. -/
def createLease (s : State) (r : CreateLeaseReq) (now : Date) : State × Except String Lease :=
  match createLeaseErr s r with
  | some e => (s, Except.error e)
  | none =>
    let p := createLeaseApply s r now
    (p.1, Except.ok p.2)

/-- First error thrown by `activateLease` (lease.controller.js 212-342):
404 on a missing lease (225); inside the transaction, reading
`lease.tenant.bedroomId` (242) and `lease.unit` (249 / 255) throws when the
included relation is null, the full-unit occupancy check (250-252), the
bedroom-lease fully-booked check (255-257), and `tx.bedroom.update` on the
tenant's cached bedroom id (278-281) throws when that row is missing. -/
def activateLeaseErr (s : State) (id : Nat) : Option String :=
  match s.leases.find? (fun l => l.id == id) with
  | none => some "Lease not found"
  | some lease =>
    match s.users.find? (fun u => u.id == lease.tenantId) with
    | none => some "TypeError: cannot read bedroomId of null"
    | some tenant =>
      match s.units.find? (fun u => u.id == lease.unitId) with
      | none => some "TypeError: cannot read unit of null"
      | some unit =>
        match tenant.bedroomId with
        | none =>
          let occupiedBedrooms := (s.bedrooms.filter (fun b =>
            b.unitId == lease.unitId)).filter (fun b => b.status == "Occupied")
          if occupiedBedrooms.length > 0 then
            some ("Cannot activate full unit lease: " ++ toString occupiedBedrooms.length ++
              " bedroom(s) are already occupied. Please ensure all bedrooms are vacant.")
          else none
        | some b =>
          if unit.status == "Fully Booked" && unit.rentalMode == some "FULL_UNIT" then
            some "Cannot activate bedroom lease: This unit is fully occupied as a full unit."
          else if (s.bedrooms.find? (fun bd => bd.id == b)).isNone then
            some "Record to update not found: Bedroom"
          else none

/-- Success path of `activateLease`'s transaction (lease.controller.js
227-335): set the lease Active with startDate = now, resolve the scope from
the tenant's cached `bedroomId`, update unit/bedroom statuses, and ensure the
invoice for the month of `now` (the invoice `leaseType` is the unit's
rentalMode as read before the unit updates). -/
def activateLeaseApply (s : State) (id : Nat) (now : Date) : State × Lease :=
  match s.leases.find? (fun l => l.id == id) with
  | none => (s, default)
  | some lease =>
    let updatedLease := { lease with status := "Active", startDate := some now }
    let s1 := { s with leases := s.leases.map (fun l =>
      if l.id == id then updatedLease else l) }
    let uId := lease.unitId
    let bId := (s.users.find? (fun u => u.id == lease.tenantId)).bind (fun t => t.bedroomId)
    let rentalMode0 := (s.units.find? (fun u => u.id == uId)).bind (fun u => u.rentalMode)
    let s2 :=
      match bId with
      | none =>
        let sA := updateUnitP s1 uId (fun u =>
          { u with status := "Fully Booked", rentalMode := some "FULL_UNIT" })
        { sA with bedrooms := sA.bedrooms.map (fun b =>
          if b.unitId == uId then { b with status := "Occupied" } else b) }
      | some b =>
        let sA := updateBedroomP s1 b (fun bd => { bd with status := "Occupied" })
        let sB := updateUnitP sA uId (fun u => { u with rentalMode := some "BEDROOM_WISE" })
        let allOccupied := (sB.bedrooms.filter (fun bd => bd.unitId == uId)).all
          (fun bd => bd.status == "Occupied")
        updateUnitP sB uId (fun u =>
          { u with status := if allOccupied then "Fully Booked" else "Occupied" })
    let monthStr := monthLabel now
    let s3 := ensureInvoice s2 lease.tenantId uId updatedLease.id rentalMode0 monthStr
      (updatedLease.monthlyRent.getD 0) now
    (s3, updatedLease)

/-- POST /api/admin/leases/:id/activate (lease.controller.js 212-342). -/
def activateLease (s : State) (id : Nat) (now : Date) : State × Except String Lease :=
  match activateLeaseErr s id with
  | some e => (s, Except.error e)
  | none =>
    let p := activateLeaseApply s id now
    (p.1, Except.ok p.2)

/-- First error thrown by `deleteLease` (lease.controller.js 64-161):
404 on a missing lease (77); for an Active lease `lease.tenant.bedroomId`
(82) throws when the tenant relation is null, `tx.bedroom.update` (102-105)
when the cached bedroom row is missing, and `lease.unit` / the re-fetched
unit (88, 108-113) when the unit row is missing; for a non-Active lease
`tx.user.update` (148-151) throws when the tenant row is missing. -/
def deleteLeaseErr (s : State) (id : Nat) : Option String :=
  match s.leases.find? (fun l => l.id == id) with
  | none => some "Lease not found"
  | some lease =>
    if lease.status == "Active" then
      match s.users.find? (fun u => u.id == lease.tenantId) with
      | none => some "TypeError: cannot read bedroomId of null"
      | some tenant =>
        match tenant.bedroomId with
        | none =>
          if (s.units.find? (fun u => u.id == lease.unitId)).isNone then
            some "TypeError: cannot read unit of null"
          else none
        | some b =>
          if (s.bedrooms.find? (fun bd => bd.id == b)).isNone then
            some "Record to update not found: Bedroom"
          else if (s.units.find? (fun u => u.id == lease.unitId)).isNone then
            some "TypeError: cannot read unit of null"
          else none
    else
      if (s.users.find? (fun u => u.id == lease.tenantId)).isNone then
        some "Record to update not found: User"
      else none

/-- Success path of `deleteLease`'s transactions (lease.controller.js 79-156):
for an Active lease, unwind occupancy according to the tenant's cached
`bedroomId` (full-unit: all bedrooms and the unit go Vacant; bedroom: only
that bedroom goes Vacant and the unit is recomputed), clear the tenant's
cached references, and hard-delete the lease row; for any other status,
clear the tenant's references and delete the row. -/
def deleteLeaseApply (s : State) (id : Nat) : State × String :=
  match s.leases.find? (fun l => l.id == id) with
  | none => (s, "")
  | some lease =>
    if lease.status == "Active" then
      let tenantB := (s.users.find? (fun u => u.id == lease.tenantId)).bind
        (fun t => t.bedroomId)
      let s1 :=
        match tenantB with
        | none =>
          let sA := { s with bedrooms := s.bedrooms.map (fun b =>
            if b.unitId == lease.unitId then { b with status := "Vacant" } else b) }
          updateUnitP sA lease.unitId (fun u => { u with status := "Vacant" })
        | some b =>
          let sA := updateBedroomP s b (fun bd => { bd with status := "Vacant" })
          let bl := sA.bedrooms.filter (fun bd => bd.unitId == lease.unitId)
          let allVacant := bl.all (fun bd => bd.status == "Vacant")
          let anyOccupied := bl.any (fun bd => bd.status == "Occupied")
          if allVacant then
            updateUnitP sA lease.unitId (fun u => { u with status := "Vacant" })
          else if anyOccupied then
            updateUnitP sA lease.unitId (fun u => { u with status := "Occupied" })
          else sA
      let s2 := updateUserP s1 lease.tenantId (fun u =>
        { u with bedroomId := none, unitId := none, buildingId := none })
      let s3 := { s2 with leases := s2.leases.filter (fun l => !(l.id == id)) }
      (s3, "Lease deleted and statuses reset")
    else
      let s1 := updateUserP s lease.tenantId (fun u =>
        { u with bedroomId := none, unitId := none, buildingId := none })
      let s2 := { s1 with leases := s1.leases.filter (fun l => !(l.id == id)) }
      (s2, "Deleted permanently")

/-- DELETE /api/admin/leases/:id (lease.controller.js 64-161). -/
def deleteLease (s : State) (id : Nat) : State × Except String String :=
  match deleteLeaseErr s id with
  | some e => (s, Except.error e)
  | none =>
    let p := deleteLeaseApply s id
    (p.1, Except.ok p.2)

/-- PUT /api/admin/leases/:id (lease.controller.js 164-209): validates the
rent, sets the lease's monthlyRent, and back-fills unpaid zero-amount
invoices of this lease inside one transaction. -/
def updateLease (s : State) (id : Nat) (monthlyRent : Option Int) :
    State × Except String Lease :=
  match monthlyRent with
  | none => (s, Except.error "monthlyRent is required")
  | some rentAmt =>
    if rentAmt < 0 then (s, Except.error "Invalid rent amount")
    else
      match s.leases.find? (fun l => l.id == id) with
      | none => (s, Except.error "Record to update not found: Lease")
      | some lease =>
        let updated : Lease := { lease with monthlyRent := some rentAmt }
        let s1 : State := { s with leases := s.leases.map (fun l =>
          if l.id == id then updated else l) }
        let s2 : State := { s1 with invoices := s1.invoices.map (fun i =>
          if i.leaseId == id && !(i.status == "paid") && i.amount == 0 then
            { i with rent := rentAmt, amount := rentAmt, balanceDue := rentAmt }
          else i) }
        (s2, Except.ok updated)

/-- PUT /api/admin/tenants/:id, restricted to the tenant-reassignment slice
(tenant.controller.js 461-482 and 533-594): inside the transaction the User
row's cached buildingId/unitId/bedroomId are overwritten from the request;
after the transaction the move block resolves the target unit (a supplied
bedroom overrides it), finds the tenant's first ACTIVE/Active/DRAFT lease,
and either marks it MOVED (endDate = now) and creates a fresh ACTIVE lease at
the target, updates a DRAFT in place, or creates a lease when none exists.
Name/phone/email validation and the company/resident sync mutate no
unit/bedroom/lease occupancy state and are outside this model. -/
def updateTenant (s : State) (id : Nat) (propertyId unitId bedroomId : Option Nat)
    (now : Date) : State × Except String Nat :=
  match s.users.find? (fun u => u.id == id) with
  | none => (s, Except.error "Record to update not found: User")
  | some _ =>
    let s1 := updateUserP s id (fun u =>
      { u with buildingId := propertyId, unitId := unitId, bedroomId := bedroomId })
    let newBedroomId := bedroomId
    let newUnitId : Option Nat :=
      match newBedroomId with
      | some nb =>
        match s1.bedrooms.find? (fun b => b.id == nb) with
        | some bd => some bd.unitId
        | none => unitId
      | none => unitId
    let s2 : State :=
      match newUnitId with
      | none => s1
      | some nu =>
        match s1.leases.find? (fun l =>
          l.tenantId == id &&
          (l.status == "ACTIVE" || l.status == "Active" || l.status == "DRAFT")) with
        | some cl =>
          if !(cl.unitId == nu) then
            if cl.status == "ACTIVE" || cl.status == "Active" then
              let sA : State := { s1 with leases := s1.leases.map (fun l =>
                if l.id == cl.id then { l with status := "MOVED", endDate := some now }
                else l) }
              { sA with
                leases := sA.leases ++ [{
                  id := sA.nextId, unitId := nu, bedroomId := newBedroomId,
                  tenantId := id, status := "ACTIVE", startDate := none,
                  endDate := none, monthlyRent := none, securityDeposit := none }],
                nextId := sA.nextId + 1 }
            else
              { s1 with leases := s1.leases.map (fun l =>
                if l.id == cl.id then { l with unitId := nu, bedroomId := newBedroomId }
                else l) }
          else s1
        | none =>
          { s1 with
            leases := s1.leases ++ [{
              id := s1.nextId, unitId := nu, bedroomId := newBedroomId,
              tenantId := id, status := "ACTIVE", startDate := none,
              endDate := none, monthlyRent := none, securityDeposit := none }],
            nextId := s1.nextId + 1 }
    (s2, Except.ok id)

/-! Generic list lemmas used to reason about the row-list updates. -/

theorem find_isSome_eq_any {α : Type} (l : List α) (p : α → Bool) :
    (l.find? p).isSome = l.any p := by
  induction l with
  | nil => rfl
  | cons a t ih => cases h : p a <;> simp [List.find?, h, ih]

theorem any_filter_eq {α : Type} (l : List α) (p q : α → Bool) :
    (l.filter p).any q = l.any (fun x => p x && q x) := by
  induction l with
  | nil => rfl
  | cons a t ih => cases h : p a <;> simp [List.filter_cons, h, ih]

theorem filter_length_pos_iff_any {α : Type} (l : List α) (p : α → Bool) :
    0 < (l.filter p).length ↔ l.any p = true := by
  induction l with
  | nil => simp
  | cons a t ih => cases h : p a <;> simp [List.filter_cons, h, ih]

theorem find_map_update {α : Type} (l : List α) (key : α → Nat) (uid : Nat) (f : α → α)
    (hf : ∀ x, key (f x) = key x) :
    (l.map (fun x => if key x == uid then f x else x)).find? (fun x => key x == uid)
      = (l.find? (fun x => key x == uid)).map f := by
  induction l with
  | nil => rfl
  | cons a t ih =>
    cases h : key a == uid with
    | true =>
      have h2 : key a = uid := by simpa using h
      simp [List.find?_cons, h2, hf, -List.find?_map]
    | false =>
      have h2 : ¬(key a = uid) := by simpa using h
      simpa [List.find?_cons, h2, hf, -List.find?_map] using ih

theorem find_filter_not_self {α : Type} (l : List α) (p : α → Bool) :
    (l.filter (fun x => !(p x))).find? p = none := by
  induction l with
  | nil => rfl
  | cons a t ih => cases h : p a <;> simp [List.filter_cons, h, ih, List.find?]

theorem mem_map_update {α : Type} {l : List α} {x : α} {c : α → Bool} {f : α → α}
    (hx : x ∈ l.map (fun y => if c y then f y else y)) :
    (∃ y, y ∈ l ∧ c y = true ∧ x = f y) ∨ (∃ y, y ∈ l ∧ c y = false ∧ x = y) := by
  rcases List.mem_map.mp hx with ⟨y, hy, hxy⟩
  cases h : c y with
  | true => exact Or.inl ⟨y, hy, h, by rw [← hxy]; simp [h]⟩
  | false => exact Or.inr ⟨y, hy, h, by rw [← hxy]; simp [h]⟩

/-! Frame lemmas: each row-update helper leaves every other table unchanged. -/

@[simp] theorem updateUnitP_bedrooms (s : State) (u : Nat) (f : Unit → Unit) :
    (updateUnitP s u f).bedrooms = s.bedrooms := rfl

@[simp] theorem updateUnitP_leases (s : State) (u : Nat) (f : Unit → Unit) :
    (updateUnitP s u f).leases = s.leases := rfl

@[simp] theorem updateUnitP_users (s : State) (u : Nat) (f : Unit → Unit) :
    (updateUnitP s u f).users = s.users := rfl

@[simp] theorem updateUnitP_invoices (s : State) (u : Nat) (f : Unit → Unit) :
    (updateUnitP s u f).invoices = s.invoices := rfl

@[simp] theorem updateUnitP_transactions (s : State) (u : Nat) (f : Unit → Unit) :
    (updateUnitP s u f).transactions = s.transactions := rfl

@[simp] theorem updateUnitP_nextId (s : State) (u : Nat) (f : Unit → Unit) :
    (updateUnitP s u f).nextId = s.nextId := rfl

@[simp] theorem updateBedroomP_units (s : State) (b : Nat) (f : Bedroom → Bedroom) :
    (updateBedroomP s b f).units = s.units := rfl

@[simp] theorem updateBedroomP_leases (s : State) (b : Nat) (f : Bedroom → Bedroom) :
    (updateBedroomP s b f).leases = s.leases := rfl

@[simp] theorem updateBedroomP_users (s : State) (b : Nat) (f : Bedroom → Bedroom) :
    (updateBedroomP s b f).users = s.users := rfl

@[simp] theorem updateBedroomP_invoices (s : State) (b : Nat) (f : Bedroom → Bedroom) :
    (updateBedroomP s b f).invoices = s.invoices := rfl

@[simp] theorem updateBedroomP_transactions (s : State) (b : Nat) (f : Bedroom → Bedroom) :
    (updateBedroomP s b f).transactions = s.transactions := rfl

@[simp] theorem updateBedroomP_nextId (s : State) (b : Nat) (f : Bedroom → Bedroom) :
    (updateBedroomP s b f).nextId = s.nextId := rfl

@[simp] theorem updateUserP_units (s : State) (u : Nat) (f : User → User) :
    (updateUserP s u f).units = s.units := rfl

@[simp] theorem updateUserP_bedrooms (s : State) (u : Nat) (f : User → User) :
    (updateUserP s u f).bedrooms = s.bedrooms := rfl

@[simp] theorem updateUserP_leases (s : State) (u : Nat) (f : User → User) :
    (updateUserP s u f).leases = s.leases := rfl

@[simp] theorem updateUserP_invoices (s : State) (u : Nat) (f : User → User) :
    (updateUserP s u f).invoices = s.invoices := rfl

@[simp] theorem updateUserP_transactions (s : State) (u : Nat) (f : User → User) :
    (updateUserP s u f).transactions = s.transactions := rfl

@[simp] theorem updateUserP_nextId (s : State) (u : Nat) (f : User → User) :
    (updateUserP s u f).nextId = s.nextId := rfl

@[simp] theorem ensureInvoice_units (s : State) (t u lid : Nat) (lt : Option String)
    (m : String) (rent : Int) (due : Date) :
    (ensureInvoice s t u lid lt m rent due).units = s.units := by
  unfold ensureInvoice; split <;> rfl

@[simp] theorem ensureInvoice_bedrooms (s : State) (t u lid : Nat) (lt : Option String)
    (m : String) (rent : Int) (due : Date) :
    (ensureInvoice s t u lid lt m rent due).bedrooms = s.bedrooms := by
  unfold ensureInvoice; split <;> rfl

@[simp] theorem ensureInvoice_leases (s : State) (t u lid : Nat) (lt : Option String)
    (m : String) (rent : Int) (due : Date) :
    (ensureInvoice s t u lid lt m rent due).leases = s.leases := by
  unfold ensureInvoice; split <;> rfl

@[simp] theorem ensureInvoice_users (s : State) (t u lid : Nat) (lt : Option String)
    (m : String) (rent : Int) (due : Date) :
    (ensureInvoice s t u lid lt m rent due).users = s.users := by
  unfold ensureInvoice; split <;> rfl

@[simp] theorem ensureInvoice_transactions (s : State) (t u lid : Nat) (lt : Option String)
    (m : String) (rent : Int) (due : Date) :
    (ensureInvoice s t u lid lt m rent due).transactions = s.transactions := by
  unfold ensureInvoice; split <;> rfl

/-! Concrete fixture states used by witnesses and counterexamples. -/

/-- A fixed date used by witnesses. -/
def dW : Date := ⟨2026, 1, 15⟩

/-- The empty database. -/
def sEmptyW : State := ⟨[], [], [], [], [], [], 0⟩

/-- A database with one vacant unit (id 1) and one tenant (id 11). -/
def sBaseW : State :=
  { units := [⟨1, "Vacant", none⟩], bedrooms := [], leases := [],
    users := [⟨11, none, none, none⟩], invoices := [], transactions := [], nextId := 50 }

/-- A full-unit lease request for unit 1 by tenant 11. -/
def rFullW : CreateLeaseReq := ⟨1, 11, none, dW, ⟨2027, 1, 15⟩, 100, 0⟩

/-- Invoices of `createLeaseApply` when an invoice for the lease month key
already exists: the ensure-invoice step creates nothing. -/
theorem createLeaseApply_invoices_of_found (s : State) (r : CreateLeaseReq) (now : Date)
    (h : (s.invoices.find? (invFor r.tenantId r.unitId (monthLabel r.startDate))).isSome = true) :
    (createLeaseApply s r now).1.invoices = s.invoices := by
  unfold createLeaseApply
  cases hd : s.leases.find? (fun l =>
      l.unitId == r.unitId && l.tenantId == r.tenantId && l.status == "DRAFT") <;>
    cases hb : r.bedroomId <;>
      simp [hd, hb, ensureInvoice, updateUnitP, updateBedroomP, updateUserP, h] <;>
      split <;> simp

/-- Invoices of `activateLeaseApply` when an invoice for the activation month
key already exists: the ensure-invoice step creates nothing. -/
theorem activateLeaseApply_invoices_of_found (s : State) (id : Nat) (now : Date) (L : Lease)
    (hL : s.leases.find? (fun l => l.id == id) = some L)
    (h : (s.invoices.find? (invFor L.tenantId L.unitId (monthLabel now))).isSome = true) :
    (activateLeaseApply s id now).1.invoices = s.invoices := by
  unfold activateLeaseApply
  rw [hL]
  cases hb : (s.users.find? (fun u => u.id == L.tenantId)).bind (fun t => t.bedroomId) <;>
    simp [hb, ensureInvoice, updateUnitP, updateBedroomP, updateUserP, h]

/-- A positive row count for a triple means the findFirst on that triple hits. -/
theorem invoiceCountFor_pos_find (s : State) (t u : Nat) (m : String)
    (h : 0 < invoiceCountFor s t u m) :
    (s.invoices.find? (invFor t u m)).isSome = true := by
  rw [find_isSome_eq_any]
  exact (filter_length_pos_iff_any _ _).mp h

/-- C3: for `createLease`, `activateLease` and `deleteLease`, every write of
one call is inside a single transaction, so whenever the call fails (with a
validation or occupancy-conflict error, a not-found error, or a failed row
update) the resulting state equals the starting state: no Unit, Bedroom,
Lease, Invoice, Transaction or User row is mutated. -/
theorem lease_ops_rollback_on_error (s : State) (r : CreateLeaseReq) (now : Date) (id : Nat) :
    ((createLease s r now).2.isOk = false → (createLease s r now).1 = s) ∧
    ((activateLease s id now).2.isOk = false → (activateLease s id now).1 = s) ∧
    ((deleteLease s id).2.isOk = false → (deleteLease s id).1 = s) := by
  refine ⟨?_, ?_, ?_⟩ <;> intro h
  · cases hE : createLeaseErr s r with
    | some e => simp [createLease, hE]
    | none => simp [createLease, hE, Except.isOk, Except.toBool] at h
  · cases hE : activateLeaseErr s id with
    | some e => simp [activateLease, hE]
    | none => simp [activateLease, hE, Except.isOk, Except.toBool] at h
  · cases hE : deleteLeaseErr s id with
    | some e => simp [deleteLease, hE]
    | none => simp [deleteLease, hE, Except.isOk, Except.toBool] at h

/-- C3 witness: a `createLease` against the empty database fails (unit not
found) and leaves the database unchanged. -/
theorem lease_ops_rollback_on_error_witness :
    (createLease sEmptyW rFullW dW).1 = sEmptyW :=
  (lease_ops_rollback_on_error sEmptyW rFullW dW 0).1 (by decide)

/-- When the findFirst on the triple hits, the ensure-invoice step is the
identity on the whole state. -/
theorem ensureInvoice_found (s : State) (t u lid : Nat) (lt : Option String)
    (m : String) (rent : Int) (due : Date)
    (hf : (s.invoices.find? (invFor t u m)).isSome = true) :
    ensureInvoice s t u lid lt m rent due = s := by
  unfold ensureInvoice
  rw [if_pos hf]

/-- When the findFirst on the triple misses, the ensure-invoice step appends
exactly one invoice, and it carries the triple. -/
theorem ensureInvoice_not_found_invoices (s : State) (t u lid : Nat) (lt : Option String)
    (m : String) (rent : Int) (due : Date)
    (h0 : (s.invoices.find? (invFor t u m)).isSome = false) :
    ∃ i, invFor t u m i = true ∧
      (ensureInvoice s t u lid lt m rent due).invoices = s.invoices ++ [i] := by
  refine ⟨(⟨s.nextId, "INV-LEASE-" ++ padStart5 (toString (s.invoices.length + 1)),
    t, u, lid, lt, m, rent, 0, rent, 0, rent, "sent", due⟩ : Invoice), ?_, ?_⟩
  · simp [invFor]
  · unfold ensureInvoice
    rw [if_neg (by simp [h0])]

/-- C5: the ensure-first-invoice step is idempotent on (tenantId, unitId,
month): running it twice equals running it once; from a state with no
invoice for the triple it leaves exactly one; and no `createLease` or
`activateLease` call adds an invoice for a (tenantId, unitId, month) triple
that already has one. -/
theorem invoice_creation_idempotent :
    (∀ s t u lid lt m rent due,
      ensureInvoice (ensureInvoice s t u lid lt m rent due) t u lid lt m rent due
        = ensureInvoice s t u lid lt m rent due) ∧
    (∀ s t u lid lt m rent due, invoiceCountFor s t u m = 0 →
      invoiceCountFor (ensureInvoice s t u lid lt m rent due) t u m = 1) ∧
    (∀ s r now, 0 < invoiceCountFor s r.tenantId r.unitId (monthLabel r.startDate) →
      invoiceCountFor (createLease s r now).1 r.tenantId r.unitId (monthLabel r.startDate)
        = invoiceCountFor s r.tenantId r.unitId (monthLabel r.startDate)) ∧
    (∀ s id now L, s.leases.find? (fun l => l.id == id) = some L →
      0 < invoiceCountFor s L.tenantId L.unitId (monthLabel now) →
      invoiceCountFor (activateLease s id now).1 L.tenantId L.unitId (monthLabel now)
        = invoiceCountFor s L.tenantId L.unitId (monthLabel now)) := by
  refine ⟨?_, ?_, ?_, ?_⟩
  · intro s t u lid lt m rent due
    by_cases hf : (s.invoices.find? (invFor t u m)).isSome = true
    · rw [ensureInvoice_found s t u lid lt m rent due hf]
      exact ensureInvoice_found s t u lid lt m rent due hf
    · have h0 : (s.invoices.find? (invFor t u m)).isSome = false := by simpa using hf
      obtain ⟨i, hi, hinv⟩ := ensureInvoice_not_found_invoices s t u lid lt m rent due h0
      have hf2 : (((ensureInvoice s t u lid lt m rent due).invoices).find?
          (invFor t u m)).isSome = true := by
        rw [hinv, find_isSome_eq_any]
        simp [hi]
      exact ensureInvoice_found _ t u lid lt m rent due hf2
  · intro s t u lid lt m rent due h
    unfold invoiceCountFor at h
    have hany : s.invoices.any (invFor t u m) = false := by
      cases hc : s.invoices.any (invFor t u m) with
      | false => rfl
      | true =>
        have := (filter_length_pos_iff_any s.invoices (invFor t u m)).mpr hc
        omega
    have h0 : (s.invoices.find? (invFor t u m)).isSome = false := by
      rw [find_isSome_eq_any]; exact hany
    obtain ⟨i, hi, hinv⟩ := ensureInvoice_not_found_invoices s t u lid lt m rent due h0
    unfold invoiceCountFor
    rw [hinv]
    simp [List.filter_append, hi, h]
  · intro s r now hpos
    cases hE : createLeaseErr s r with
    | some e => simp [createLease, hE]
    | none =>
      have hfound := invoiceCountFor_pos_find s r.tenantId r.unitId (monthLabel r.startDate) hpos
      have hinv := createLeaseApply_invoices_of_found s r now hfound
      simp [createLease, hE, invoiceCountFor, hinv]
  · intro s id now L hL hpos
    cases hE : activateLeaseErr s id with
    | some e => simp [activateLease, hE]
    | none =>
      have hfound := invoiceCountFor_pos_find s L.tenantId L.unitId (monthLabel now) hpos
      have hinv := activateLeaseApply_invoices_of_found s id now L hL hfound
      simp [activateLease, hE, invoiceCountFor, hinv]

/-- C5 witness: from the empty database, ensuring the January 2026 invoice
for tenant 11 / unit 1 / lease 31 twice leaves exactly one invoice row for
that triple. -/
theorem invoice_creation_idempotent_witness :
    invoiceCountFor (ensureInvoice (ensureInvoice sEmptyW 11 1 31 none "January 2026" 100 dW)
        11 1 31 none "January 2026" 100 dW) 11 1 "January 2026" = 1 := by
  rw [invoice_creation_idempotent.1 sEmptyW 11 1 31 none "January 2026" 100 dW]
  exact invoice_creation_idempotent.2.1 sEmptyW 11 1 31 none "January 2026" 100 dW (by decide)

/-- Pointwise-equal predicates give equal `any`. -/
theorem any_congr {α : Type} {l : List α} {p q : α → Bool} (h : ∀ x, p x = q x) :
    l.any p = l.any q :=
  congrArg l.any (funext h)

/-- The filtered findFirst for an Active lease of the unit hits exactly when
some lease row of the unit is Active. -/
theorem unitLeases_active_any (s : State) (uId : Nat) :
    ((s.leases.filter (fun l =>
        l.unitId == uId && (l.status == "Active" || l.status == "DRAFT"))).find?
      (fun l => l.status == "Active")).isSome
      = s.leases.any (fun l => l.unitId == uId && l.status == "Active") := by
  rw [find_isSome_eq_any, any_filter_eq]
  apply any_congr
  intro x
  cases hx1 : x.unitId == uId <;> cases hx2 : x.status == "Active" <;>
    cases hx3 : x.status == "DRAFT" <;> simp [hx1, hx2, hx3]

/-- The filtered findFirst for another tenant's DRAFT lease of the unit hits
exactly when some lease row of the unit is a DRAFT of a different tenant. -/
theorem unitLeases_otherDraft_any (s : State) (uId tId : Nat) :
    ((s.leases.filter (fun l =>
        l.unitId == uId && (l.status == "Active" || l.status == "DRAFT"))).find?
      (fun l => l.status == "DRAFT" && !(l.tenantId == tId))).isSome
      = s.leases.any (fun l =>
          l.unitId == uId && l.status == "DRAFT" && !(l.tenantId == tId)) := by
  rw [find_isSome_eq_any, any_filter_eq]
  apply any_congr
  intro x
  cases hx1 : x.unitId == uId <;> cases hx2 : x.status == "DRAFT" <;>
    cases hx3 : x.status == "Active" <;> cases hx4 : x.tenantId == tId <;>
      simp [hx1, hx2, hx3, hx4]

/-- C1: a `createLease` call with no bedroomId (full-unit request) against an
existing unit and tenant succeeds exactly when no bedroom of the unit is
Occupied, no Active lease exists for the unit, and no DRAFT lease of a
different tenant exists for the unit; and when n bedrooms are occupied
(n positive) it fails with the error message naming n. -/
theorem createLease_fullUnit_occupancy_checks (s : State) (r : CreateLeaseReq) (now : Date)
    (hb : r.bedroomId = none)
    (hu : (s.units.find? (fun u => u.id == r.unitId)).isSome = true)
    (ht : (s.users.find? (fun u => u.id == r.tenantId)).isSome = true) :
    ((createLease s r now).2.isOk = true ↔
      (((s.bedrooms.filter (fun b => b.unitId == r.unitId)).filter
          (fun b => b.status == "Occupied")).length = 0 ∧
        s.leases.any (fun l => l.unitId == r.unitId && l.status == "Active") = false ∧
        s.leases.any (fun l => l.unitId == r.unitId && l.status == "DRAFT"
          && !(l.tenantId == r.tenantId)) = false)) ∧
    (∀ n, ((s.bedrooms.filter (fun b => b.unitId == r.unitId)).filter
          (fun b => b.status == "Occupied")).length = n → 0 < n →
      (createLease s r now).2 = Except.error ("Cannot create full unit lease: " ++
        toString n ++
        " bedroom(s) are already occupied. Please ensure all bedrooms are vacant.")) := by
  obtain ⟨u0, hu0⟩ := Option.isSome_iff_exists.mp hu
  have ht4 : (s.users.find? (fun u => u.id == r.tenantId)).isNone = false := by
    cases hc : s.users.find? (fun u => u.id == r.tenantId) with
    | none => rw [hc] at ht; exact absurd ht (by simp)
    | some _ => rfl
  constructor
  · have hErr : createLeaseErr s r = none ↔
        (((s.bedrooms.filter (fun b => b.unitId == r.unitId)).filter
            (fun b => b.status == "Occupied")).length = 0 ∧
          s.leases.any (fun l => l.unitId == r.unitId && l.status == "Active") = false ∧
          s.leases.any (fun l => l.unitId == r.unitId && l.status == "DRAFT"
            && !(l.tenantId == r.tenantId)) = false) := by
      unfold createLeaseErr
      rw [hu0]
      simp only [hb]
      rw [unitLeases_active_any s r.unitId, unitLeases_otherDraft_any s r.unitId r.tenantId]
      constructor
      · intro h
        split_ifs at h with h1 h2 h3 h4
        all_goals try (simp at h)
        exact ⟨by omega, by simpa using h2, by simpa using h3⟩
      · rintro ⟨c1, c2, c3⟩
        rw [if_neg (by rw [c1]; simp), if_neg (by simp [c2]), if_neg (by simp [c3]),
          if_neg (by simp [ht4])]
    have hiso : (createLease s r now).2.isOk = true ↔ createLeaseErr s r = none := by
      cases hE : createLeaseErr s r with
      | some e => simp [createLease, hE, Except.isOk, Except.toBool]
      | none => simp [createLease, hE, Except.isOk, Except.toBool]
    rw [hiso, hErr]
  · intro n hn hpos
    have hE : createLeaseErr s r = some ("Cannot create full unit lease: " ++
        toString n ++
        " bedroom(s) are already occupied. Please ensure all bedrooms are vacant.") := by
      unfold createLeaseErr
      rw [hu0]
      simp only [hb]
      rw [if_pos (by rw [hn]; exact hpos), hn]
    simp [createLease, hE]

/-- The spec scenario state for the conflicting full-unit attempt: unit 1 in
bedroom-wise mode with B1 (id 21) occupied under tenant 11's active bedroom
lease, B2/B3 vacant, and an unhoused tenant 14. -/
def sOcc1W : State :=
  { units := [⟨1, "Occupied", some "BEDROOM_WISE"⟩],
    bedrooms := [⟨21, 1, 1, "Occupied"⟩, ⟨22, 1, 2, "Vacant"⟩, ⟨23, 1, 3, "Vacant"⟩],
    leases := [⟨31, 1, none, 11, "Active", some dW, none, some 100, some 0⟩],
    users := [⟨11, some 1, some 21, none⟩, ⟨14, none, none, none⟩],
    invoices := [], transactions := [], nextId := 60 }

/-- The conflicting full-unit request of the scenario: tenant 14, unit 1, no
bedroom. -/
def rT4W : CreateLeaseReq := ⟨1, 14, none, dW, ⟨2027, 1, 15⟩, 100, 0⟩

/-- C1 witness: with B1 occupied, the full-unit attempt by tenant 14 fails
with the message naming 1 occupied bedroom. -/
theorem createLease_fullUnit_occupancy_checks_witness :
    (createLease sOcc1W rT4W dW).2 = Except.error ("Cannot create full unit lease: " ++
      toString 1 ++
      " bedroom(s) are already occupied. Please ensure all bedrooms are vacant.") :=
  (createLease_fullUnit_occupancy_checks sOcc1W rT4W dW rfl (by decide) (by decide)).2
    1 (by decide) (by decide)

/-- An option that is some is not none. -/
theorem isNone_false_of_isSome {α : Type} (o : Option α) (h : o.isSome = true) :
    o.isNone = false := by
  cases o with
  | none => simp at h
  | some _ => rfl

/-- C6: deleting an Active full-unit lease (the tenant's cached bedroomId is
null) succeeds, sets the Unit's status and the status of every Bedroom under
it to Vacant, clears the tenant's cached unitId/bedroomId/buildingId, and
removes the lease row entirely (hard delete). -/
theorem deleteLease_fullUnit_unwind (s : State) (id : Nat) (L : Lease) (T : User)
    (hL : s.leases.find? (fun l => l.id == id) = some L)
    (hact : L.status = "Active")
    (hT : s.users.find? (fun u => u.id == L.tenantId) = some T)
    (hTb : T.bedroomId = none)
    (hu : (s.units.find? (fun u => u.id == L.unitId)).isSome = true) :
    ((deleteLease s id).2 = Except.ok "Lease deleted and statuses reset") ∧
    (((deleteLease s id).1.units.find? (fun u => u.id == L.unitId)).map Unit.status
      = (s.units.find? (fun u => u.id == L.unitId)).map (fun _ => "Vacant")) ∧
    (∀ bd, bd ∈ (deleteLease s id).1.bedrooms → (bd.unitId == L.unitId) = true →
      bd.status = "Vacant") ∧
    ((deleteLease s id).1.users.find? (fun u => u.id == L.tenantId)
      = some { T with bedroomId := none, unitId := none, buildingId := none }) ∧
    ((deleteLease s id).1.leases.find? (fun l => l.id == id) = none) := by
  have hE : deleteLeaseErr s id = none := by
    unfold deleteLeaseErr
    simp only [hL]
    rw [if_pos (by simp [hact])]
    simp only [hT, hTb]
    rw [if_neg (by simp [isNone_false_of_isSome _ hu])]
  have happ : deleteLease s id = ((deleteLeaseApply s id).1, Except.ok (deleteLeaseApply s id).2) := by
    simp [deleteLease, hE]
  have hbody : deleteLeaseApply s id
      = ({ s with
            bedrooms := s.bedrooms.map (fun bd =>
              if bd.unitId == L.unitId then { bd with status := "Vacant" } else bd),
            units := s.units.map (fun u =>
              if u.id == L.unitId then { u with status := "Vacant" } else u),
            users := s.users.map (fun u =>
              if u.id == L.tenantId then
                { u with bedroomId := none, unitId := none, buildingId := none } else u),
            leases := s.leases.filter (fun l => !(l.id == id)) },
          "Lease deleted and statuses reset") := by
    unfold deleteLeaseApply
    simp only [hL]
    rw [if_pos (by simp [hact])]
    simp [hT, hTb, updateUnitP, updateUserP]
  rw [happ, hbody]
  refine ⟨rfl, ?_, ?_, ?_, ?_⟩
  · have := find_map_update s.units (fun u => u.id) L.unitId
      (fun u => { u with status := "Vacant" }) (fun _ => rfl)
    simp only [this]
    obtain ⟨u0, hu0⟩ := Option.isSome_iff_exists.mp hu
    rw [hu0]
    rfl
  · intro bd hbd hbu
    rcases mem_map_update hbd with ⟨y, _, hc, hxy⟩ | ⟨y, _, hc, hxy⟩
    · rw [hxy]
    · rw [hxy] at hbu ⊢
      rw [hc] at hbu
      simp at hbu
  · have := find_map_update s.users (fun u => u.id) L.tenantId
      (fun u => { u with bedroomId := none, unitId := none, buildingId := none })
      (fun _ => rfl)
    simp only [this]
    rw [hT]
    rfl
  · exact find_filter_not_self s.leases (fun l => l.id == id)

/-- C6 witness state: unit 1 fully booked under tenant 11's Active full-unit
lease 31, with one occupied bedroom. -/
def sDel6W : State :=
  { units := [⟨1, "Fully Booked", some "FULL_UNIT"⟩],
    bedrooms := [⟨21, 1, 1, "Occupied"⟩],
    leases := [⟨31, 1, none, 11, "Active", some dW, some dW, some 100, some 0⟩],
    users := [⟨11, some 1, none, some 5⟩],
    invoices := [], transactions := [], nextId := 70 }

/-- C6 witness: deleting lease 31 vacates unit 1 and its bedroom, clears
tenant 11's cached references, and removes the row. -/
theorem deleteLease_fullUnit_unwind_witness :
    ((deleteLease sDel6W 31).2 = Except.ok "Lease deleted and statuses reset") ∧
    ((deleteLease sDel6W 31).1.leases.find? (fun l => l.id == 31) = none) :=
  ⟨(deleteLease_fullUnit_unwind sDel6W 31
      ⟨31, 1, none, 11, "Active", some dW, some dW, some 100, some 0⟩
      ⟨11, some 1, none, some 5⟩ rfl rfl rfl rfl (by decide)).1,
   (deleteLease_fullUnit_unwind sDel6W 31
      ⟨31, 1, none, 11, "Active", some dW, some dW, some 100, some 0⟩
      ⟨11, some 1, none, some 5⟩ rfl rfl rfl rfl (by decide)).2.2.2.2⟩

/-- C7: deleting an Active bedroom-scoped lease (the tenant's cached
bedroomId points at bedroom b) succeeds, sets only bedroom b to Vacant (every
other bedroom row is kept as it was), recomputes the Unit's status from the
updated bedrooms — Vacant when all are vacant, Occupied when some bedroom is
still occupied, unchanged otherwise — and removes the lease row. -/
theorem deleteLease_bedroom_unwind (s : State) (id : Nat) (L : Lease) (T : User) (b : Nat)
    (hL : s.leases.find? (fun l => l.id == id) = some L)
    (hact : L.status = "Active")
    (hT : s.users.find? (fun u => u.id == L.tenantId) = some T)
    (hTb : T.bedroomId = some b)
    (hbr : (s.bedrooms.find? (fun bd => bd.id == b)).isSome = true)
    (hu : (s.units.find? (fun u => u.id == L.unitId)).isSome = true) :
    ((deleteLease s id).2 = Except.ok "Lease deleted and statuses reset") ∧
    (((deleteLease s id).1.bedrooms.find? (fun bd => bd.id == b)).map Bedroom.status
      = some "Vacant") ∧
    (∀ bd, bd ∈ (deleteLease s id).1.bedrooms → (bd.id == b) = false → bd ∈ s.bedrooms) ∧
    ((((deleteLease s id).1.bedrooms.filter (fun bd => bd.unitId == L.unitId)).all
        (fun bd => bd.status == "Vacant")) = true →
      ((deleteLease s id).1.units.find? (fun u => u.id == L.unitId)).map Unit.status
        = some "Vacant") ∧
    ((((deleteLease s id).1.bedrooms.filter (fun bd => bd.unitId == L.unitId)).all
        (fun bd => bd.status == "Vacant")) = false →
      (((deleteLease s id).1.bedrooms.filter (fun bd => bd.unitId == L.unitId)).any
        (fun bd => bd.status == "Occupied")) = true →
      ((deleteLease s id).1.units.find? (fun u => u.id == L.unitId)).map Unit.status
        = some "Occupied") ∧
    ((((deleteLease s id).1.bedrooms.filter (fun bd => bd.unitId == L.unitId)).all
        (fun bd => bd.status == "Vacant")) = false →
      (((deleteLease s id).1.bedrooms.filter (fun bd => bd.unitId == L.unitId)).any
        (fun bd => bd.status == "Occupied")) = false →
      (deleteLease s id).1.units.find? (fun u => u.id == L.unitId)
        = s.units.find? (fun u => u.id == L.unitId)) ∧
    ((deleteLease s id).1.leases.find? (fun l => l.id == id) = none) := by
  have hE : deleteLeaseErr s id = none := by
    unfold deleteLeaseErr
    simp only [hL]
    rw [if_pos (by simp [hact])]
    simp only [hT, hTb]
    rw [if_neg (by simp [isNone_false_of_isSome _ hbr]),
      if_neg (by simp [isNone_false_of_isSome _ hu])]
  have happ : deleteLease s id
      = ((deleteLeaseApply s id).1, Except.ok (deleteLeaseApply s id).2) := by
    simp [deleteLease, hE]
  have hfb := find_map_update s.bedrooms (fun bd => bd.id) b
    (fun bd => { bd with status := "Vacant" }) (fun _ => rfl)
  have hfu := find_map_update s.units (fun u => u.id) L.unitId
    (fun u => { u with status := "Vacant" }) (fun _ => rfl)
  have hfo := find_map_update s.units (fun u => u.id) L.unitId
    (fun u => { u with status := "Occupied" }) (fun _ => rfl)
  obtain ⟨b0, hb0⟩ := Option.isSome_iff_exists.mp hbr
  obtain ⟨u0, hu0⟩ := Option.isSome_iff_exists.mp hu
  by_cases hall : ((s.bedrooms.map (fun bd =>
        if bd.id == b then { bd with status := "Vacant" } else bd)).filter
      (fun bd => bd.unitId == L.unitId)).all (fun bd => bd.status == "Vacant") = true
  · have hbody : deleteLeaseApply s id
        = ({ s with
              bedrooms := s.bedrooms.map (fun bd =>
                if bd.id == b then { bd with status := "Vacant" } else bd),
              units := s.units.map (fun u =>
                if u.id == L.unitId then { u with status := "Vacant" } else u),
              users := s.users.map (fun u =>
                if u.id == L.tenantId then
                  { u with bedroomId := none, unitId := none, buildingId := none } else u),
              leases := s.leases.filter (fun l => !(l.id == id)) },
            "Lease deleted and statuses reset") := by
      unfold deleteLeaseApply
      simp only [hL]
      rw [if_pos (by simp [hact])]
      simp only [hT, Option.some_bind, hTb, updateBedroomP]
      rw [if_pos hall]
      simp only [updateUnitP, updateUserP]
    rw [happ, hbody]
    refine ⟨rfl, ?_, ?_, ?_, ?_, ?_, ?_⟩
    · simp only [hfb, hb0]
      rfl
    · intro bd hbd hne
      rcases mem_map_update hbd with ⟨y, hy, hc, hxy⟩ | ⟨y, hy, hc, hxy⟩
      · rw [hxy] at hne
        simp only at hne
        rw [hc] at hne
        simp at hne
      · rw [hxy]; exact hy
    · intro _
      simp only [hfu, hu0]
      rfl
    · intro hc _
      rw [hall] at hc
      simp at hc
    · intro hc _
      rw [hall] at hc
      simp at hc
    · exact find_filter_not_self s.leases (fun l => l.id == id)
  · have hallf : ((s.bedrooms.map (fun bd =>
          if bd.id == b then { bd with status := "Vacant" } else bd)).filter
        (fun bd => bd.unitId == L.unitId)).all (fun bd => bd.status == "Vacant") = false := by
      simpa using hall
    by_cases hany : ((s.bedrooms.map (fun bd =>
          if bd.id == b then { bd with status := "Vacant" } else bd)).filter
        (fun bd => bd.unitId == L.unitId)).any (fun bd => bd.status == "Occupied") = true
    · have hbody : deleteLeaseApply s id
          = ({ s with
                bedrooms := s.bedrooms.map (fun bd =>
                  if bd.id == b then { bd with status := "Vacant" } else bd),
                units := s.units.map (fun u =>
                  if u.id == L.unitId then { u with status := "Occupied" } else u),
                users := s.users.map (fun u =>
                  if u.id == L.tenantId then
                    { u with bedroomId := none, unitId := none, buildingId := none } else u),
                leases := s.leases.filter (fun l => !(l.id == id)) },
              "Lease deleted and statuses reset") := by
        unfold deleteLeaseApply
        simp only [hL]
        rw [if_pos (by simp [hact])]
        simp only [hT, Option.some_bind, hTb, updateBedroomP]
        rw [if_neg (by rw [hallf]; decide), if_pos hany]
        simp only [updateUnitP, updateUserP]
      rw [happ, hbody]
      refine ⟨rfl, ?_, ?_, ?_, ?_, ?_, ?_⟩
      · simp only [hfb, hb0]
        rfl
      · intro bd hbd hne
        rcases mem_map_update hbd with ⟨y, hy, hc, hxy⟩ | ⟨y, hy, hc, hxy⟩
        · rw [hxy] at hne
          simp only at hne
          rw [hc] at hne
          simp at hne
        · rw [hxy]; exact hy
      · intro hc
        rw [hallf] at hc
        simp at hc
      · intro _ _
        simp only [hfo, hu0]
        rfl
      · intro _ hc
        rw [hany] at hc
        simp at hc
      · exact find_filter_not_self s.leases (fun l => l.id == id)
    · have hanyf : ((s.bedrooms.map (fun bd =>
            if bd.id == b then { bd with status := "Vacant" } else bd)).filter
          (fun bd => bd.unitId == L.unitId)).any (fun bd => bd.status == "Occupied") = false := by
        simpa using hany
      have hbody : deleteLeaseApply s id
          = ({ s with
                bedrooms := s.bedrooms.map (fun bd =>
                  if bd.id == b then { bd with status := "Vacant" } else bd),
                users := s.users.map (fun u =>
                  if u.id == L.tenantId then
                    { u with bedroomId := none, unitId := none, buildingId := none } else u),
                leases := s.leases.filter (fun l => !(l.id == id)) },
              "Lease deleted and statuses reset") := by
        unfold deleteLeaseApply
        simp only [hL]
        rw [if_pos (by simp [hact])]
        simp only [hT, Option.some_bind, hTb, updateBedroomP]
        rw [if_neg (by rw [hallf]; decide), if_neg (by rw [hanyf]; decide)]
        simp only [updateUserP]
      rw [happ, hbody]
      refine ⟨rfl, ?_, ?_, ?_, ?_, ?_, ?_⟩
      · simp only [hfb, hb0]
        rfl
      · intro bd hbd hne
        rcases mem_map_update hbd with ⟨y, hy, hc, hxy⟩ | ⟨y, hy, hc, hxy⟩
        · rw [hxy] at hne
          simp only at hne
          rw [hc] at hne
          simp at hne
        · rw [hxy]; exact hy
      · intro hc
        rw [hallf] at hc
        simp at hc
      · intro _ hc
        rw [hanyf] at hc
        simp at hc
      · intro _ _
        rfl
      · exact find_filter_not_self s.leases (fun l => l.id == id)

/-- C7 witness state: unit 1 bedroom-wise with bedrooms 21 and 22 occupied by
tenants 11 and 12 under Active leases 31 and 32. -/
def sDel7W : State :=
  { units := [⟨1, "Fully Booked", some "BEDROOM_WISE"⟩],
    bedrooms := [⟨21, 1, 1, "Occupied"⟩, ⟨22, 1, 2, "Occupied"⟩],
    leases := [⟨31, 1, none, 11, "Active", some dW, none, some 100, some 0⟩,
               ⟨32, 1, none, 12, "Active", some dW, none, some 100, some 0⟩],
    users := [⟨11, some 1, some 21, none⟩, ⟨12, some 1, some 22, none⟩],
    invoices := [], transactions := [], nextId := 80 }

/-- C7 witness: deleting tenant 11's bedroom lease vacates only bedroom 21;
bedroom 22 stays occupied, so the unit's status recomputes to Occupied. -/
theorem deleteLease_bedroom_unwind_witness :
    (((deleteLease sDel7W 31).1.bedrooms.find? (fun bd => bd.id == 21)).map Bedroom.status
      = some "Vacant") ∧
    (((deleteLease sDel7W 31).1.units.find? (fun u => u.id == 1)).map Unit.status
      = some "Occupied") := by
  have h := deleteLease_bedroom_unwind sDel7W 31
    ⟨31, 1, none, 11, "Active", some dW, none, some 100, some 0⟩
    ⟨11, some 1, some 21, none⟩ 21 rfl rfl rfl rfl (by decide) (by decide)
  exact ⟨h.2.1, h.2.2.2.2.1 (by decide) (by decide)⟩

/-- A list is pointwise related to its map when the relation holds at every
member. -/
theorem forall2_map_self_mem {α : Type} (l : List α) (f : α → α) (R : α → α → Prop)
    (h : ∀ x, x ∈ l → R x (f x)) : List.Forall₂ R l (l.map f) := by
  induction l with
  | nil => exact List.Forall₂.nil
  | cons a t ih =>
    exact List.Forall₂.cons (h a (List.mem_cons_self a t))
      (ih (fun x hx => h x (List.mem_cons_of_mem a hx)))

/-- C8: `updateLease(id, monthlyRent)` succeeds on an existing lease with a
non-negative rent, changes no lease status, sets only that lease's
monthlyRent, back-fills exactly the invoices of this lease that are not paid
and have amount 0 (setting rent, amount and balanceDue to the new rent),
leaves every other invoice row identical, and leaves Unit, Bedroom, User and
Transaction rows untouched.  `hpk` states that the lease id is a primary
key, as in the database schema. -/
theorem updateLease_rent_backfill (s : State) (id : Nat) (rentAmt : Int) (L : Lease)
    (hge : 0 ≤ rentAmt)
    (hL : s.leases.find? (fun l => l.id == id) = some L)
    (hpk : ∀ l, l ∈ s.leases → (l.id == id) = true → l = L) :
    ((updateLease s id (some rentAmt)).2 = Except.ok { L with monthlyRent := some rentAmt }) ∧
    ((updateLease s id (some rentAmt)).1.units = s.units) ∧
    ((updateLease s id (some rentAmt)).1.bedrooms = s.bedrooms) ∧
    ((updateLease s id (some rentAmt)).1.users = s.users) ∧
    ((updateLease s id (some rentAmt)).1.transactions = s.transactions) ∧
    List.Forall₂ (fun l0 l1 =>
        l1.status = l0.status ∧
        ((l0.id == id) = true → l1 = { l0 with monthlyRent := some rentAmt }) ∧
        ((l0.id == id) = false → l1 = l0))
      s.leases (updateLease s id (some rentAmt)).1.leases ∧
    List.Forall₂ (fun i0 i1 =>
        ((i0.leaseId == id && !(i0.status == "paid") && i0.amount == 0) = true →
          i1 = { i0 with rent := rentAmt, amount := rentAmt, balanceDue := rentAmt }) ∧
        ((i0.leaseId == id && !(i0.status == "paid") && i0.amount == 0) = false →
          i1 = i0))
      s.invoices (updateLease s id (some rentAmt)).1.invoices := by
  have hbody : updateLease s id (some rentAmt)
      = ({ s with
            leases := s.leases.map (fun l =>
              if l.id == id then { L with monthlyRent := some rentAmt } else l),
            invoices := s.invoices.map (fun i =>
              if i.leaseId == id && !(i.status == "paid") && i.amount == 0 then
                { i with rent := rentAmt, amount := rentAmt, balanceDue := rentAmt }
              else i) },
          Except.ok { L with monthlyRent := some rentAmt }) := by
    simp only [updateLease]
    rw [if_neg (by omega)]
    simp only [hL]
  rw [hbody]
  refine ⟨rfl, rfl, rfl, rfl, rfl, ?_, ?_⟩
  · apply forall2_map_self_mem
    intro x hx
    by_cases hc : (x.id == id) = true
    · have hxL : x = L := hpk x hx hc
      rw [if_pos hc]
      subst hxL
      refine ⟨rfl, fun _ => rfl, fun hf => ?_⟩
      rw [hc] at hf
      cases hf
    · have hcf : (x.id == id) = false := by simpa using hc
      rw [if_neg hc]
      refine ⟨rfl, fun ht => ?_, fun _ => rfl⟩
      rw [ht] at hcf
      cases hcf
  · apply forall2_map_self_mem
    intro x _
    by_cases hc : (x.leaseId == id && !(x.status == "paid") && x.amount == 0) = true
    · rw [if_pos hc]
      refine ⟨fun _ => rfl, fun hf => ?_⟩
      rw [hc] at hf
      cases hf
    · have hcf : (x.leaseId == id && !(x.status == "paid") && x.amount == 0) = false := by
        simpa using hc
      rw [if_neg hc]
      refine ⟨fun ht => ?_, fun _ => rfl⟩
      rw [ht] at hcf
      cases hcf

/-- C8 witness state: lease 31 with a zero-amount sent invoice (id 91) and a
paid invoice (id 92). -/
def sUpd8W : State :=
  { units := [⟨1, "Fully Booked", some "FULL_UNIT"⟩], bedrooms := [],
    leases := [⟨31, 1, none, 11, "Active", some dW, none, some 0, some 0⟩],
    users := [⟨11, some 1, none, none⟩],
    invoices := [⟨91, "INV-LEASE-00001", 11, 1, 31, some "FULL_UNIT", "January 2026",
                  0, 0, 0, 0, 0, "sent", dW⟩,
                 ⟨92, "INV-LEASE-00002", 11, 1, 31, some "FULL_UNIT", "February 2026",
                  50, 0, 50, 50, 0, "paid", dW⟩],
    transactions := [], nextId := 95 }

/-- C8 witness: raising lease 31's rent to 120 returns the updated lease and
leaves units/bedrooms/users/transactions untouched. -/
theorem updateLease_rent_backfill_witness :
    ((updateLease sUpd8W 31 (some 120)).2
      = Except.ok ⟨31, 1, none, 11, "Active", some dW, none, some 120, some 0⟩) ∧
    ((updateLease sUpd8W 31 (some 120)).1.units = sUpd8W.units) := by
  have h := updateLease_rent_backfill sUpd8W 31 120
    ⟨31, 1, none, 11, "Active", some dW, none, some 0, some 0⟩
    (by decide) rfl (by decide)
  exact ⟨h.1, h.2.1⟩

/-- Finding the replaced row after a keyed constant replacement. -/
theorem find_map_replace {α : Type} (l : List α) (key : α → Nat) (uid : Nat) (z : α)
    (hz : key z = uid) :
    (l.map (fun x => if key x == uid then z else x)).find? (fun x => key x == uid)
      = (l.find? (fun x => key x == uid)).map (fun _ => z) := by
  induction l with
  | nil => rfl
  | cons a t ih =>
    cases h : key a == uid with
    | true =>
      have h2 : key a = uid := by simpa using h
      simp [List.find?_cons, h2, hz, -List.find?_map]
    | false =>
      have h2 : ¬(key a = uid) := by simpa using h
      simpa [List.find?_cons, h2, hz, -List.find?_map] using ih

/-- What a successful run of `createLeaseErr`'s bedroom branch guarantees:
the unit row exists and the target bedroom row exists (under this unit). -/
theorem createLeaseErr_none_bedroom_facts (s : State) (r : CreateLeaseReq) (b : Nat)
    (hb : r.bedroomId = some b) (hE : createLeaseErr s r = none) :
    (s.units.find? (fun u => u.id == r.unitId)).isSome = true ∧
    (∃ bd, bd ∈ s.bedrooms ∧ (bd.unitId == r.unitId) = true ∧ (bd.id == b) = true) := by
  unfold createLeaseErr at hE
  cases hu : s.units.find? (fun u => u.id == r.unitId) with
  | none =>
    simp only [hu] at hE
    exact Option.noConfusion hE
  | some u0 =>
    simp only [hu, hb] at hE
    refine ⟨rfl, ?_⟩
    cases hbf : (s.bedrooms.filter (fun x => x.unitId == r.unitId)).find?
        (fun x => x.id == b) with
    | none =>
      simp only [hbf] at hE
      split_ifs at hE
    | some bd0 =>
      have hmem := List.mem_of_find?_eq_some hbf
      have hpred := List.find?_some hbf
      have hmem2 := List.mem_filter.mp hmem
      exact ⟨bd0, hmem2.1, hmem2.2, hpred⟩

/-- What a successful run of `activateLeaseErr`'s bedroom branch guarantees:
the unit row exists, the full-unit fully-booked check fails, and the cached
bedroom row exists. -/
theorem activateLeaseErr_none_bedroom_facts (s : State) (id : Nat) (L : Lease) (T : User)
    (b : Nat)
    (hL : s.leases.find? (fun l => l.id == id) = some L)
    (hT : s.users.find? (fun u => u.id == L.tenantId) = some T)
    (hTb : T.bedroomId = some b)
    (hE : activateLeaseErr s id = none) :
    ∃ U, s.units.find? (fun u => u.id == L.unitId) = some U ∧
      (U.status == "Fully Booked" && U.rentalMode == some "FULL_UNIT") = false ∧
      (s.bedrooms.find? (fun bd => bd.id == b)).isSome = true := by
  unfold activateLeaseErr at hE
  simp only [hL, hT] at hE
  cases hu : s.units.find? (fun u => u.id == L.unitId) with
  | none =>
    simp only [hu] at hE
    exact Option.noConfusion hE
  | some U =>
    simp only [hu, hTb] at hE
    have hcf : (U.status == "Fully Booked" && U.rentalMode == some "FULL_UNIT") = false := by
      by_cases hc : (U.status == "Fully Booked" && U.rentalMode == some "FULL_UNIT") = true
      · rw [if_pos hc] at hE
        exact Option.noConfusion hE
      · simpa using hc
    rw [if_neg (by simp [hcf])] at hE
    refine ⟨U, rfl, hcf, ?_⟩
    by_cases hn : (s.bedrooms.find? (fun bd => bd.id == b)).isNone = true
    · rw [if_pos hn] at hE
      exact Option.noConfusion hE
    · cases ho2 : s.bedrooms.find? (fun bd => bd.id == b) with
      | some _ => rfl
      | none =>
        rw [ho2] at hn
        exact absurd rfl hn

/-- Bedrooms and units written by `createLeaseApply` in the bedroom branch:
the target bedroom goes Occupied, the unit goes BEDROOM_WISE, and the unit
status is recomputed from the updated bedrooms. -/
theorem createLeaseApply_bedroom_occ (s : State) (r : CreateLeaseReq) (now : Date) (b : Nat)
    (hb : r.bedroomId = some b) :
    (createLeaseApply s r now).1.bedrooms
      = s.bedrooms.map (fun bd => if bd.id == b then { bd with status := "Occupied" } else bd) ∧
    (createLeaseApply s r now).1.units
      = (s.units.map (fun u =>
          if u.id == r.unitId then { u with rentalMode := some "BEDROOM_WISE" } else u)).map
        (fun u => if u.id == r.unitId then
          { u with status :=
            if ((s.bedrooms.map (fun bd =>
                  if bd.id == b then { bd with status := "Occupied" } else bd)).filter
                (fun bd => bd.unitId == r.unitId)).all (fun bd => bd.status == "Occupied")
            then "Fully Booked" else "Occupied" }
          else u) := by
  unfold createLeaseApply
  cases hd : s.leases.find? (fun l =>
      l.unitId == r.unitId && l.tenantId == r.tenantId && l.status == "DRAFT") <;>
    simp only [hd, hb, updateBedroomP, updateUnitP, updateUserP] <;>
    constructor <;>
    · split <;> simp

/-- Bedrooms and units written by `activateLeaseApply` in the bedroom branch. -/
theorem activateLeaseApply_bedroom_occ (s : State) (id : Nat) (now : Date) (L : Lease)
    (b : Nat)
    (hL : s.leases.find? (fun l => l.id == id) = some L)
    (hbid : (s.users.find? (fun u => u.id == L.tenantId)).bind (fun t => t.bedroomId)
      = some b) :
    (activateLeaseApply s id now).1.bedrooms
      = s.bedrooms.map (fun bd => if bd.id == b then { bd with status := "Occupied" } else bd) ∧
    (activateLeaseApply s id now).1.units
      = (s.units.map (fun u =>
          if u.id == L.unitId then { u with rentalMode := some "BEDROOM_WISE" } else u)).map
        (fun u => if u.id == L.unitId then
          { u with status :=
            if ((s.bedrooms.map (fun bd =>
                  if bd.id == b then { bd with status := "Occupied" } else bd)).filter
                (fun bd => bd.unitId == L.unitId)).all (fun bd => bd.status == "Occupied")
            then "Fully Booked" else "Occupied" }
          else u) := by
  unfold activateLeaseApply
  simp only [hL, hbid, updateBedroomP, updateUnitP]
  exact ⟨by simp, by simp⟩

/-- The lease row written by `activateLeaseApply`. -/
theorem activateLeaseApply_lease_row (s : State) (id : Nat) (now : Date) (L : Lease)
    (hL : s.leases.find? (fun l => l.id == id) = some L) :
    (activateLeaseApply s id now).1.leases.find? (fun l => l.id == id)
      = some { L with status := "Active", startDate := some now } ∧
    (activateLeaseApply s id now).2 = { L with status := "Active", startDate := some now } := by
  have hid : L.id = id := by simpa using List.find?_some hL
  have hrep := find_map_replace s.leases (fun l => l.id) id
    { L with status := "Active", startDate := some now } (by simpa using hid)
  constructor
  · unfold activateLeaseApply
    simp only [hL]
    cases hbid : (s.users.find? (fun u => u.id == L.tenantId)).bind (fun t => t.bedroomId) with
    | none =>
      simp only [hbid, updateUnitP, ensureInvoice_leases]
      rw [hrep, hL]
      rfl
    | some b =>
      simp only [hbid, updateBedroomP, updateUnitP, ensureInvoice_leases]
      rw [hrep, hL]
      rfl
  · unfold activateLeaseApply
    simp only [hL]

/-- The spec scenario start state: unit 1 with three vacant bedrooms
(21, 22, 23), three tenants (11, 12, 13) whose caches point at one bedroom
each, and three DRAFT leases (31, 32, 33). -/
def sScnW : State :=
  { units := [⟨1, "Vacant", some "BEDROOM_WISE"⟩],
    bedrooms := [⟨21, 1, 1, "Vacant"⟩, ⟨22, 1, 2, "Vacant"⟩, ⟨23, 1, 3, "Vacant"⟩],
    leases := [⟨31, 1, none, 11, "DRAFT", none, none, none, none⟩,
               ⟨32, 1, none, 12, "DRAFT", none, none, none, none⟩,
               ⟨33, 1, none, 13, "DRAFT", none, none, none, none⟩],
    users := [⟨11, some 1, some 21, none⟩, ⟨12, some 1, some 22, none⟩,
              ⟨13, some 1, some 23, none⟩],
    invoices := [], transactions := [], nextId := 100 }

/-- Scenario state after activating lease 31 (bedroom 21). -/
def sScn1W : State := (activateLease sScnW 31 dW).1

/-- Scenario state after then activating lease 32 (bedroom 22). -/
def sScn2W : State := (activateLease sScn1W 32 dW).1

/-- Scenario state after then activating lease 33 (bedroom 23). -/
def sScn3W : State := (activateLease sScn2W 33 dW).1

/-- C2: after every successful bedroom-scoped lease creation or activation,
the target Bedroom is Occupied, the Unit's rentalMode is BEDROOM_WISE, and
the Unit's status is Fully Booked when every bedroom of the unit is now
Occupied and Occupied otherwise; in particular activating the three bedroom
leases of the scenario in order leaves the unit Occupied, Occupied, then
Fully Booked. -/
theorem bedroom_lease_occupancy_sync :
    (∀ s r now b, r.bedroomId = some b → (createLease s r now).2.isOk = true →
      (((createLease s r now).1.bedrooms.find? (fun bd => bd.id == b)).map Bedroom.status
        = some "Occupied") ∧
      (((createLease s r now).1.units.find? (fun u => u.id == r.unitId)).map Unit.rentalMode
        = some (some "BEDROOM_WISE")) ∧
      ((((createLease s r now).1.bedrooms.filter (fun bd => bd.unitId == r.unitId)).all
          (fun bd => bd.status == "Occupied")) = true →
        ((createLease s r now).1.units.find? (fun u => u.id == r.unitId)).map Unit.status
          = some "Fully Booked") ∧
      ((((createLease s r now).1.bedrooms.filter (fun bd => bd.unitId == r.unitId)).all
          (fun bd => bd.status == "Occupied")) = false →
        ((createLease s r now).1.units.find? (fun u => u.id == r.unitId)).map Unit.status
          = some "Occupied")) ∧
    (∀ s id now L T b,
      s.leases.find? (fun l => l.id == id) = some L →
      s.users.find? (fun u => u.id == L.tenantId) = some T →
      T.bedroomId = some b →
      (activateLease s id now).2.isOk = true →
      (((activateLease s id now).1.bedrooms.find? (fun bd => bd.id == b)).map Bedroom.status
        = some "Occupied") ∧
      (((activateLease s id now).1.units.find? (fun u => u.id == L.unitId)).map Unit.rentalMode
        = some (some "BEDROOM_WISE")) ∧
      ((((activateLease s id now).1.bedrooms.filter (fun bd => bd.unitId == L.unitId)).all
          (fun bd => bd.status == "Occupied")) = true →
        ((activateLease s id now).1.units.find? (fun u => u.id == L.unitId)).map Unit.status
          = some "Fully Booked") ∧
      ((((activateLease s id now).1.bedrooms.filter (fun bd => bd.unitId == L.unitId)).all
          (fun bd => bd.status == "Occupied")) = false →
        ((activateLease s id now).1.units.find? (fun u => u.id == L.unitId)).map Unit.status
          = some "Occupied")) ∧
    (((sScn1W.bedrooms.find? (fun bd => bd.id == 21)).map Bedroom.status = some "Occupied") ∧
     ((sScn1W.units.find? (fun u => u.id == 1)).map Unit.status = some "Occupied") ∧
     ((sScn1W.units.find? (fun u => u.id == 1)).map Unit.rentalMode
        = some (some "BEDROOM_WISE")) ∧
     ((sScn2W.units.find? (fun u => u.id == 1)).map Unit.status = some "Occupied") ∧
     ((sScn3W.units.find? (fun u => u.id == 1)).map Unit.status = some "Fully Booked")) := by
  refine ⟨?_, ?_, ?_⟩
  · intro s r now b hb hok
    cases hE : createLeaseErr s r with
    | some e => simp [createLease, hE, Except.isOk, Except.toBool] at hok
    | none =>
      obtain ⟨hu, bd0, hbmem, hbunit, hbid⟩ := createLeaseErr_none_bedroom_facts s r b hb hE
      obtain ⟨bocc, bunits⟩ := createLeaseApply_bedroom_occ s r now b hb
      have hstate : (createLease s r now).1 = (createLeaseApply s r now).1 := by
        simp [createLease, hE]
      have hbfind : (s.bedrooms.find? (fun bd => bd.id == b)).isSome = true := by
        rw [List.find?_isSome]
        exact ⟨bd0, hbmem, hbid⟩
      obtain ⟨bd1, hbd1⟩ := Option.isSome_iff_exists.mp hbfind
      obtain ⟨u0, hu0⟩ := Option.isSome_iff_exists.mp hu
      have hfb := find_map_update s.bedrooms (fun bd => bd.id) b
        (fun bd => { bd with status := "Occupied" }) (fun _ => rfl)
      have hfBW := find_map_update s.units (fun u => u.id) r.unitId
        (fun u => { u with rentalMode := some "BEDROOM_WISE" }) (fun _ => rfl)
      have hfSt := find_map_update
        (s.units.map (fun u =>
          if u.id == r.unitId then { u with rentalMode := some "BEDROOM_WISE" } else u))
        (fun u => u.id) r.unitId
        (fun u => { u with status :=
          if ((s.bedrooms.map (fun bd =>
                if bd.id == b then { bd with status := "Occupied" } else bd)).filter
              (fun bd => bd.unitId == r.unitId)).all (fun bd => bd.status == "Occupied")
          then "Fully Booked" else "Occupied" }) (fun _ => rfl)
      refine ⟨?_, ?_, ?_, ?_⟩
      · rw [hstate, bocc, hfb, hbd1]
        rfl
      · rw [hstate, bunits, hfSt, hfBW, hu0]
        rfl
      · intro hcond
        rw [hstate, bocc] at hcond
        rw [hstate, bunits, hfSt, hfBW, hu0, hcond]
        rfl
      · intro hcond
        rw [hstate, bocc] at hcond
        rw [hstate, bunits, hfSt, hfBW, hu0, hcond]
        rfl
  · intro s id now L T b hL hT hTb hok
    cases hE : activateLeaseErr s id with
    | some e => simp [activateLease, hE, Except.isOk, Except.toBool] at hok
    | none =>
      obtain ⟨U, hU, hUchk, hbfind⟩ := activateLeaseErr_none_bedroom_facts s id L T b hL hT hTb hE
      have hbid : (s.users.find? (fun u => u.id == L.tenantId)).bind (fun t => t.bedroomId)
          = some b := by
        rw [hT, Option.some_bind, hTb]
      obtain ⟨bocc, bunits⟩ := activateLeaseApply_bedroom_occ s id now L b hL hbid
      have hstate : (activateLease s id now).1 = (activateLeaseApply s id now).1 := by
        simp [activateLease, hE]
      obtain ⟨bd1, hbd1⟩ := Option.isSome_iff_exists.mp hbfind
      have hfb := find_map_update s.bedrooms (fun bd => bd.id) b
        (fun bd => { bd with status := "Occupied" }) (fun _ => rfl)
      have hfBW := find_map_update s.units (fun u => u.id) L.unitId
        (fun u => { u with rentalMode := some "BEDROOM_WISE" }) (fun _ => rfl)
      have hfSt := find_map_update
        (s.units.map (fun u =>
          if u.id == L.unitId then { u with rentalMode := some "BEDROOM_WISE" } else u))
        (fun u => u.id) L.unitId
        (fun u => { u with status :=
          if ((s.bedrooms.map (fun bd =>
                if bd.id == b then { bd with status := "Occupied" } else bd)).filter
              (fun bd => bd.unitId == L.unitId)).all (fun bd => bd.status == "Occupied")
          then "Fully Booked" else "Occupied" }) (fun _ => rfl)
      refine ⟨?_, ?_, ?_, ?_⟩
      · rw [hstate, bocc, hfb, hbd1]
        rfl
      · rw [hstate, bunits, hfSt, hfBW, hU]
        rfl
      · intro hcond
        rw [hstate, bocc] at hcond
        rw [hstate, bunits, hfSt, hfBW, hU, hcond]
        rfl
      · intro hcond
        rw [hstate, bocc] at hcond
        rw [hstate, bunits, hfSt, hfBW, hU, hcond]
        rfl
  · refine ⟨?_, ?_, ?_, ?_, ?_⟩ <;> decide

/-- C2 witness: creating a bedroom lease on bedroom 21 of a two-bedroom unit
marks bedroom 21 Occupied. -/
theorem bedroom_lease_occupancy_sync_witness :
    (((createLease
        { units := [⟨1, "Vacant", some "BEDROOM_WISE"⟩],
          bedrooms := [⟨21, 1, 1, "Vacant"⟩, ⟨22, 1, 2, "Vacant"⟩],
          leases := [], users := [⟨11, none, none, none⟩],
          invoices := [], transactions := [], nextId := 40 }
        ⟨1, 11, some 21, dW, ⟨2027, 1, 15⟩, 100, 0⟩ dW).1.bedrooms.find?
      (fun bd => bd.id == 21)).map Bedroom.status = some "Occupied") :=
  (bedroom_lease_occupancy_sync.1
    { units := [⟨1, "Vacant", some "BEDROOM_WISE"⟩],
      bedrooms := [⟨21, 1, 1, "Vacant"⟩, ⟨22, 1, 2, "Vacant"⟩],
      leases := [], users := [⟨11, none, none, none⟩],
      invoices := [], transactions := [], nextId := 40 }
    ⟨1, 11, some 21, dW, ⟨2027, 1, 15⟩, 100, 0⟩ dW 21 rfl (by decide)).1

/-- The C4 counterexample state: unit 1 bedroom-wise with bedroom 21 already
Occupied under tenant 11's Active lease; tenant 12 holds DRAFT lease 32 and
a cached bedroomId pointing at the same occupied bedroom 21. -/
def sC4W : State :=
  { units := [⟨1, "Occupied", some "BEDROOM_WISE"⟩],
    bedrooms := [⟨21, 1, 1, "Occupied"⟩, ⟨22, 1, 2, "Vacant"⟩],
    leases := [⟨31, 1, none, 11, "Active", some dW, none, some 100, some 0⟩,
               ⟨32, 1, none, 12, "DRAFT", none, none, none, none⟩],
    users := [⟨11, some 1, some 21, none⟩, ⟨12, some 1, some 21, none⟩],
    invoices := [], transactions := [], nextId := 200 }

/-- C4 counterexample: bedroom 21 is not Vacant (it is Occupied), lease 32 is
a DRAFT bedroom-scoped lease targeting it, yet `activateLease` succeeds —
the claim that activation rejects a non-Vacant target bedroom is false on
the code. -/
theorem activateLease_occupied_bedroom_accepted :
    ((sC4W.bedrooms.find? (fun bd => bd.id == 21)).map Bedroom.status = some "Occupied") ∧
    ((sC4W.leases.find? (fun l => l.id == 32)).map Lease.status = some "DRAFT") ∧
    ((sC4W.users.find? (fun u => u.id == 12)).map User.bedroomId = some (some 21)) ∧
    ((activateLease sC4W 32 dW).2.isOk = true) := by
  refine ⟨?_, ?_, ?_, ?_⟩ <;> decide

/-- C4 (amended): `activateLease` sets the lease (whatever its previous
status) to Active with startDate = now; for a bedroom-scoped lease (cached
bedroomId = b, bedroom row present) it rejects exactly when the unit's
status is Fully Booked and its rentalMode is FULL_UNIT — it does not check
for conflicting DRAFT full-unit leases of other tenants, nor that the target
bedroom is Vacant; a missing bedroom row fails only through the failed row
update. -/
theorem activateLease_transitions_and_checks (s : State) (id : Nat) (now : Date)
    (L : Lease) (T : User) (U : Unit) (b : Nat)
    (hL : s.leases.find? (fun l => l.id == id) = some L)
    (hT : s.users.find? (fun u => u.id == L.tenantId) = some T)
    (hTb : T.bedroomId = some b)
    (hU : s.units.find? (fun u => u.id == L.unitId) = some U)
    (hbr : (s.bedrooms.find? (fun bd => bd.id == b)).isSome = true) :
    ((activateLease s id now).2.isOk = true ↔
      (U.status == "Fully Booked" && U.rentalMode == some "FULL_UNIT") = false) ∧
    ((activateLease s id now).2.isOk = true →
      (activateLease s id now).1.leases.find? (fun l => l.id == id)
        = some { L with status := "Active", startDate := some now } ∧
      (activateLease s id now).2
        = Except.ok { L with status := "Active", startDate := some now }) := by
  have hEeq : activateLeaseErr s id
      = (if (U.status == "Fully Booked" && U.rentalMode == some "FULL_UNIT") = true then
          some "Cannot activate bedroom lease: This unit is fully occupied as a full unit."
        else none) := by
    unfold activateLeaseErr
    simp only [hL, hT, hU, hTb]
    by_cases hc : (U.status == "Fully Booked" && U.rentalMode == some "FULL_UNIT") = true
    · rw [if_pos hc, if_pos hc]
    · rw [if_neg hc, if_neg hc, if_neg (by simp [isNone_false_of_isSome _ hbr])]
  constructor
  · cases hc : (U.status == "Fully Booked" && U.rentalMode == some "FULL_UNIT") with
    | true =>
      have hE : activateLeaseErr s id
          = some "Cannot activate bedroom lease: This unit is fully occupied as a full unit." := by
        rw [hEeq, if_pos hc]
      simp [activateLease, hE, Except.isOk, Except.toBool]
    | false =>
      have hE : activateLeaseErr s id = none := by
        rw [hEeq, if_neg (by simp [hc])]
      simp [activateLease, hE, Except.isOk, Except.toBool]
  · intro hok
    cases hE : activateLeaseErr s id with
    | some e => simp [activateLease, hE, Except.isOk, Except.toBool] at hok
    | none =>
      have hrow := activateLeaseApply_lease_row s id now L hL
      constructor
      · have hstate : (activateLease s id now).1 = (activateLeaseApply s id now).1 := by
          simp [activateLease, hE]
        rw [hstate]
        exact hrow.1
      · have hval : (activateLease s id now).2 = Except.ok (activateLeaseApply s id now).2 := by
          simp [activateLease, hE]
        rw [hval, hrow.2]

/-- C4 amended-claim witness: activating DRAFT lease 32 in the
counterexample state yields the Active row with startDate = now. -/
theorem activateLease_transitions_and_checks_witness :
    (activateLease sC4W 32 dW).1.leases.find? (fun l => l.id == 32)
      = some ⟨32, 1, none, 12, "Active", some dW, none, none, none⟩ :=
  ((activateLease_transitions_and_checks sC4W 32 dW
    ⟨32, 1, none, 12, "DRAFT", none, none, none, none⟩
    ⟨12, some 1, some 21, none⟩ ⟨1, "Occupied", some "BEDROOM_WISE"⟩ 21
    rfl rfl rfl rfl (by decide)).2 (by decide)).1

/-- The C9 move state: tenant 11 holds Active full-unit lease 31 on unit 1
(Fully Booked); unit 2 is vacant. -/
def sC9W : State :=
  { units := [⟨1, "Fully Booked", some "FULL_UNIT"⟩, ⟨2, "Vacant", none⟩],
    bedrooms := [],
    leases := [⟨31, 1, none, 11, "Active", some dW, none, some 100, some 0⟩],
    users := [⟨11, some 1, none, none⟩],
    invoices := [], transactions := [], nextId := 300 }

/-- C9 counterexample: moving tenant 11 from unit 1 to unit 2 marks the old
lease MOVED and caches unitId = 2, but unit 1's status stays Fully Booked
(it is not set to Vacant) and the new lease's status is the literal string
"ACTIVE", not "Active" — so the claim is false at this input. -/
theorem updateTenant_move_does_not_vacate_old_unit :
    (((updateTenant sC9W 11 none (some 2) none dW).1.units.find?
        (fun u => u.id == 1)).map Unit.status = some "Fully Booked") ∧
    ¬(((updateTenant sC9W 11 none (some 2) none dW).1.units.find?
        (fun u => u.id == 1)).map Unit.status = some "Vacant") ∧
    (((updateTenant sC9W 11 none (some 2) none dW).1.leases.getLast?).map Lease.status
      = some "ACTIVE") ∧
    ¬(((updateTenant sC9W 11 none (some 2) none dW).1.leases.getLast?).map Lease.status
      = some "Active") ∧
    (((updateTenant sC9W 11 none (some 2) none dW).1.leases.find?
        (fun l => l.id == 31)).map Lease.status = some "MOVED") ∧
    (((updateTenant sC9W 11 none (some 2) none dW).1.users.find?
        (fun u => u.id == 11)).map User.unitId = some (some 2)) := by
  refine ⟨?_, ?_, ?_, ?_, ?_, ?_⟩ <;> decide

/-- C9 (amended): moving a tenant with an Active lease on unit A to a
different unit B transitions the old lease to MOVED with endDate = now,
appends a new lease on B whose status is the literal string "ACTIVE" (not
"Active") with no dates or rent, and caches unitId = B on the tenant; but
no Unit or Bedroom statuses are recomputed — in particular unit A is NOT set
to Vacant (the units and bedrooms tables are untouched).  `hpk` states lease
id is a primary key. -/
theorem updateTenant_move_active (s : State) (id : Nat) (propertyId : Option Nat)
    (nu : Nat) (now : Date) (cl : Lease)
    (hUser : (s.users.find? (fun u => u.id == id)).isSome = true)
    (hcl : s.leases.find? (fun l =>
        l.tenantId == id &&
        (l.status == "ACTIVE" || l.status == "Active" || l.status == "DRAFT")) = some cl)
    (hact : cl.status = "Active")
    (hne : (cl.unitId == nu) = false)
    (hpk : ∀ l, l ∈ s.leases → (l.id == cl.id) = true → l = cl) :
    ((updateTenant s id propertyId (some nu) none now).2 = Except.ok id) ∧
    ((updateTenant s id propertyId (some nu) none now).1.units = s.units) ∧
    ((updateTenant s id propertyId (some nu) none now).1.bedrooms = s.bedrooms) ∧
    ((updateTenant s id propertyId (some nu) none now).1.leases.getLast?
      = some ⟨s.nextId, nu, none, id, "ACTIVE", none, none, none, none⟩) ∧
    ((updateTenant s id propertyId (some nu) none now).1.leases.find?
        (fun l => l.id == cl.id)
      = some { cl with status := "MOVED", endDate := some now }) ∧
    (((updateTenant s id propertyId (some nu) none now).1.users.find?
        (fun u => u.id == id)).map User.unitId = some (some nu)) := by
  obtain ⟨T, hTfind⟩ := Option.isSome_iff_exists.mp hUser
  have hclmem := List.mem_of_find?_eq_some hcl
  have hclin : s.leases.find? (fun l => l.id == cl.id) = some cl := by
    cases hf : s.leases.find? (fun l => l.id == cl.id) with
    | none =>
      have := (List.find?_eq_none.mp hf) cl hclmem
      simp at this
    | some x =>
      have hpx0 := List.find?_some hf
      have hx := hpk x (List.mem_of_find?_eq_some hf) (by simpa using hpx0)
      rw [hx]
  have hTmap := find_map_update s.users (fun u => u.id) id
    (fun u => { u with buildingId := propertyId, unitId := some nu, bedroomId := none })
    (fun _ => rfl)
  have hMoved := find_map_update s.leases (fun l => l.id) cl.id
    (fun l => { l with status := "MOVED", endDate := some now }) (fun _ => rfl)
  have hbody : updateTenant s id propertyId (some nu) none now
      = ({ s with
            users := s.users.map (fun u =>
              if u.id == id then
                { u with buildingId := propertyId, unitId := some nu, bedroomId := none }
              else u),
            leases := (s.leases.map (fun l =>
              if l.id == cl.id then { l with status := "MOVED", endDate := some now }
              else l)) ++ [⟨s.nextId, nu, none, id, "ACTIVE", none, none, none, none⟩],
            nextId := s.nextId + 1 },
          Except.ok id) := by
    unfold updateTenant
    simp only [hTfind, updateUserP, hcl]
    rw [if_pos (by simp [hne]), if_pos (by simp [hact])]
  rw [hbody]
  refine ⟨rfl, rfl, rfl, ?_, ?_, ?_⟩
  · exact List.getLast?_concat _
  · rw [List.find?_append, hMoved, hclin]
    rfl
  · simp only [hTmap, hTfind]
    rfl

/-- C9 amended-claim witness: the concrete move of tenant 11 from unit 1 to
unit 2. -/
theorem updateTenant_move_active_witness :
    ((updateTenant sC9W 11 none (some 2) none dW).1.units = sC9W.units) ∧
    ((updateTenant sC9W 11 none (some 2) none dW).1.leases.find?
        (fun l => l.id == 31)
      = some ⟨31, 1, none, 11, "MOVED", some dW, some dW, some 100, some 0⟩) := by
  have h := updateTenant_move_active sC9W 11 none 2 dW
    ⟨31, 1, none, 11, "Active", some dW, none, some 100, some 0⟩
    (by decide) rfl rfl (by decide) (by decide)
  exact ⟨h.2.1, h.2.2.2.2.1⟩

/-- Lease rows written by `createLeaseApply` when a reusable DRAFT exists. -/
theorem createLeaseApply_leases_draft (s : State) (r : CreateLeaseReq) (now : Date) (d : Lease)
    (hd : s.leases.find? (fun l =>
        l.unitId == r.unitId && l.tenantId == r.tenantId && l.status == "DRAFT") = some d) :
    (createLeaseApply s r now).1.leases
      = s.leases.map (fun l => if l.id == d.id then
          ({ d with
             startDate := some r.startDate, endDate := some r.endDate,
             monthlyRent := some r.monthlyRent, securityDeposit := some r.securityDeposit,
             status := "Active" } : Lease) else l) ∧
    (createLeaseApply s r now).2
      = ({ d with
           startDate := some r.startDate, endDate := some r.endDate,
           monthlyRent := some r.monthlyRent, securityDeposit := some r.securityDeposit,
           status := "Active" } : Lease) := by
  unfold createLeaseApply
  simp only [hd]
  cases hb2 : r.bedroomId with
  | none =>
    constructor
    · simp only [hb2, updateUnitP, updateUserP]
      split <;> simp
    · simp [hb2]
  | some bb =>
    constructor
    · simp only [hb2, updateBedroomP, updateUnitP, updateUserP]
      split <;> simp
    · simp [hb2]

/-- Lease rows written by `createLeaseApply` when no reusable DRAFT exists. -/
theorem createLeaseApply_leases_new (s : State) (r : CreateLeaseReq) (now : Date)
    (hd : s.leases.find? (fun l =>
        l.unitId == r.unitId && l.tenantId == r.tenantId && l.status == "DRAFT") = none) :
    (createLeaseApply s r now).1.leases
      = s.leases ++ [⟨s.nextId, r.unitId, none, r.tenantId, "Active", some r.startDate,
          some r.endDate, some r.monthlyRent, some r.securityDeposit⟩] ∧
    (createLeaseApply s r now).2
      = ⟨s.nextId, r.unitId, none, r.tenantId, "Active", some r.startDate,
          some r.endDate, some r.monthlyRent, some r.securityDeposit⟩ := by
  unfold createLeaseApply
  simp only [hd]
  cases hb2 : r.bedroomId with
  | none =>
    constructor
    · simp only [hb2, updateUnitP, updateUserP]
      split <;> simp
    · simp [hb2]
  | some bb =>
    constructor
    · simp only [hb2, updateBedroomP, updateUnitP, updateUserP]
      split <;> simp
    · simp [hb2]

/-- A successful full-unit `activateLeaseErr` run guarantees the unit row
exists. -/
theorem activateLeaseErr_none_fullUnit_facts (s : State) (id : Nat) (L : Lease) (T : User)
    (hL : s.leases.find? (fun l => l.id == id) = some L)
    (hT : s.users.find? (fun u => u.id == L.tenantId) = some T)
    (hE : activateLeaseErr s id = none) :
    (s.units.find? (fun u => u.id == L.unitId)).isSome = true := by
  unfold activateLeaseErr at hE
  simp only [hL, hT] at hE
  cases hu : s.units.find? (fun u => u.id == L.unitId) with
  | none =>
    simp only [hu] at hE
    exact Option.noConfusion hE
  | some _ => rfl

/-- Units written by `activateLeaseApply` in the full-unit branch (taken when
the TENANT's cached bedroomId is null, whatever the lease row's bedroomId
column says). -/
theorem activateLeaseApply_fullUnit_units (s : State) (id : Nat) (now : Date) (L : Lease)
    (hL : s.leases.find? (fun l => l.id == id) = some L)
    (hbid : (s.users.find? (fun u => u.id == L.tenantId)).bind (fun t => t.bedroomId)
      = none) :
    (activateLeaseApply s id now).1.units
      = s.units.map (fun u => if u.id == L.unitId then
          { u with status := "Fully Booked", rentalMode := some "FULL_UNIT" } else u) := by
  unfold activateLeaseApply
  simp only [hL, hbid, updateUnitP, ensureInvoice_units]

/-- A successful `deleteLeaseErr` run on an Active lease with a cached
bedroom guarantees the bedroom row exists. -/
theorem deleteLeaseErr_none_bedroom_exists (s : State) (id : Nat) (L : Lease) (T : User)
    (b : Nat)
    (hL : s.leases.find? (fun l => l.id == id) = some L)
    (hact : L.status = "Active")
    (hT : s.users.find? (fun u => u.id == L.tenantId) = some T)
    (hTb : T.bedroomId = some b)
    (hE : deleteLeaseErr s id = none) :
    (s.bedrooms.find? (fun bd => bd.id == b)).isSome = true := by
  unfold deleteLeaseErr at hE
  simp only [hL] at hE
  rw [if_pos (by simp [hact])] at hE
  simp only [hT, hTb] at hE
  by_cases hn : (s.bedrooms.find? (fun bd => bd.id == b)).isNone = true
  · rw [if_pos hn] at hE
    exact Option.noConfusion hE
  · cases ho : s.bedrooms.find? (fun bd => bd.id == b) with
    | some _ => rfl
    | none =>
      rw [ho] at hn
      exact absurd rfl hn

/-- Bedrooms written by `deleteLeaseApply` in the bedroom branch (taken when
the TENANT's cached bedroomId is set, whatever the lease row's bedroomId
column says). -/
theorem deleteLeaseApply_bedroom_bedrooms (s : State) (id : Nat) (L : Lease) (b : Nat)
    (hL : s.leases.find? (fun l => l.id == id) = some L)
    (hact : L.status = "Active")
    (hbid : (s.users.find? (fun u => u.id == L.tenantId)).bind (fun t => t.bedroomId)
      = some b) :
    (deleteLeaseApply s id).1.bedrooms
      = s.bedrooms.map (fun bd => if bd.id == b then { bd with status := "Vacant" } else bd) := by
  unfold deleteLeaseApply
  simp only [hL]
  rw [if_pos (by simp [hact])]
  simp only [hbid, updateBedroomP, updateUnitP, updateUserP]
  split_ifs <;> rfl

/-- C10: no Lease row written by `createLease` carries the requested
bedroomId — a newly created row has bedroomId null even for a bedroom-scoped
request, and a reused DRAFT keeps its (null) bedroomId; the bedroom scope
lives only in the tenant's cached User.bedroomId, and `activateLease` /
`deleteLease` choose full-unit versus bedroom behaviour from that cache and
not from the Lease row's bedroomId column (the lease row's bedroomId is left
entirely unconstrained in the last two parts). -/
theorem lease_rows_bedroomId_null_scope_from_cache :
    (∀ s r now,
      (∀ d, d ∈ s.leases →
        (d.unitId == r.unitId && d.tenantId == r.tenantId && d.status == "DRAFT") = true →
        d.bedroomId = none) →
      (createLease s r now).2.isOk = true →
      (∀ l, (createLease s r now).2 = Except.ok l → l.bedroomId = none) ∧
      (∀ l, l ∈ (createLease s r now).1.leases → l ∈ s.leases ∨ l.bedroomId = none)) ∧
    (∀ s id now L T,
      s.leases.find? (fun l => l.id == id) = some L →
      s.users.find? (fun u => u.id == L.tenantId) = some T →
      T.bedroomId = none →
      (activateLease s id now).2.isOk = true →
      ((activateLease s id now).1.units.find? (fun u => u.id == L.unitId)).map
          (fun u => (u.status, u.rentalMode))
        = some ("Fully Booked", some "FULL_UNIT")) ∧
    (∀ s id L T b,
      s.leases.find? (fun l => l.id == id) = some L →
      L.status = "Active" →
      s.users.find? (fun u => u.id == L.tenantId) = some T →
      T.bedroomId = some b →
      (deleteLease s id).2.isOk = true →
      ((deleteLease s id).1.bedrooms.find? (fun bd => bd.id == b)).map Bedroom.status
        = some "Vacant") := by
  refine ⟨?_, ?_, ?_⟩
  · intro s r now hdraft hok
    cases hE : createLeaseErr s r with
    | some e => simp [createLease, hE, Except.isOk, Except.toBool] at hok
    | none =>
      have hstate : (createLease s r now).1 = (createLeaseApply s r now).1 := by
        simp [createLease, hE]
      have hval : (createLease s r now).2 = Except.ok (createLeaseApply s r now).2 := by
        simp [createLease, hE]
      cases hd : s.leases.find? (fun l =>
          l.unitId == r.unitId && l.tenantId == r.tenantId && l.status == "DRAFT") with
      | some d =>
        have hdb : d.bedroomId = none :=
          hdraft d (List.mem_of_find?_eq_some hd) (by simpa using List.find?_some hd)
        obtain ⟨hrows, hret⟩ := createLeaseApply_leases_draft s r now d hd
        constructor
        · intro l hl
          rw [hval] at hl
          cases hl
          rw [hret]
          exact hdb
        · intro l hl
          rw [hstate, hrows] at hl
          rcases mem_map_update hl with ⟨y, _, _, hxy⟩ | ⟨y, hy, _, hxy⟩
          · right
            rw [hxy]
            exact hdb
          · left
            rw [hxy]
            exact hy
      | none =>
        obtain ⟨hrows, hret⟩ := createLeaseApply_leases_new s r now hd
        constructor
        · intro l hl
          rw [hval] at hl
          cases hl
          rw [hret]
        · intro l hl
          rw [hstate, hrows] at hl
          rcases List.mem_append.mp hl with hy | hy
          · exact Or.inl hy
          · right
            rcases List.mem_singleton.mp hy with rfl
            rfl
  · intro s id now L T hL hT hTb hok
    cases hE : activateLeaseErr s id with
    | some e => simp [activateLease, hE, Except.isOk, Except.toBool] at hok
    | none =>
      have hu := activateLeaseErr_none_fullUnit_facts s id L T hL hT hE
      obtain ⟨u0, hu0⟩ := Option.isSome_iff_exists.mp hu
      have hbid : (s.users.find? (fun u => u.id == L.tenantId)).bind (fun t => t.bedroomId)
          = none := by
        rw [hT, Option.some_bind, hTb]
      have hunits := activateLeaseApply_fullUnit_units s id now L hL hbid
      have hstate : (activateLease s id now).1 = (activateLeaseApply s id now).1 := by
        simp [activateLease, hE]
      have hfu := find_map_update s.units (fun u => u.id) L.unitId
        (fun u => { u with status := "Fully Booked", rentalMode := some "FULL_UNIT" })
        (fun _ => rfl)
      rw [hstate, hunits, hfu, hu0]
      rfl
  · intro s id L T b hL hact hT hTb hok
    cases hE : deleteLeaseErr s id with
    | some e => simp [deleteLease, hE, Except.isOk, Except.toBool] at hok
    | none =>
      have hbr := deleteLeaseErr_none_bedroom_exists s id L T b hL hact hT hTb hE
      obtain ⟨b0, hb0⟩ := Option.isSome_iff_exists.mp hbr
      have hbid : (s.users.find? (fun u => u.id == L.tenantId)).bind (fun t => t.bedroomId)
          = some b := by
        rw [hT, Option.some_bind, hTb]
      have hbeds := deleteLeaseApply_bedroom_bedrooms s id L b hL hact hbid
      have hstate : (deleteLease s id).1 = (deleteLeaseApply s id).1 := by
        simp [deleteLease, hE]
      have hfb := find_map_update s.bedrooms (fun bd => bd.id) b
        (fun bd => { bd with status := "Vacant" }) (fun _ => rfl)
      rw [hstate, hbeds, hfb, hb0]
      rfl

/-- C10 witness: a bedroom-scoped createLease (request bedroomId = 21) still
writes a lease row with bedroomId null. -/
theorem lease_rows_bedroomId_null_scope_from_cache_witness :
    ∀ l, (createLease
      { units := [⟨1, "Vacant", some "BEDROOM_WISE"⟩],
        bedrooms := [⟨21, 1, 1, "Vacant"⟩],
        leases := [], users := [⟨11, none, none, none⟩],
        invoices := [], transactions := [], nextId := 45 }
      ⟨1, 11, some 21, dW, ⟨2027, 1, 15⟩, 100, 0⟩ dW).2 = Except.ok l →
      l.bedroomId = none :=
  (lease_rows_bedroomId_null_scope_from_cache.1
    { units := [⟨1, "Vacant", some "BEDROOM_WISE"⟩],
      bedrooms := [⟨21, 1, 1, "Vacant"⟩],
      leases := [], users := [⟨11, none, none, none⟩],
      invoices := [], transactions := [], nextId := 45 }
    ⟨1, 11, some 21, dW, ⟨2027, 1, 15⟩, 100, 0⟩ dW (by intro d hd; simp at hd)
    (by decide)).1

end PropertySaif
